import Mathlib

/-! # GameLink shared-memory transport

A shallow embedding of `SuperDuperHelper/GameLink.cpp`: the packed shared
record, the process-wide variables of the controller, and the operations of
the `GameLink` namespace, followed by theorems about them.

Conventions of the embedding.

* Machine integers are natural numbers; a conversion to a `w`-bit unsigned
  type is written `% 2^w` where the source performs one.
* A byte array of the record is a function from the index to the byte.  A
  store at index `i` updates the function at `i`; whether `i` lies inside the
  declared array is a separate question, asked of the index.  The one read
  that can leave its array, `peek.data[position]` in `GetPeekAt`, follows the
  packed layout into the fields behind the array.  The program hash, which no
  operation indexes, carries its declared bound in its type.
* The record lives in the host's mapping.  The controller's pointer
  `g_p_shared_memory` is either null or points at it, so the pointer is a
  Boolean and the record is a field of its own.  An operation that
  dereferences the pointer while it is null has no result (`none`).
* The answers of the operating system (`OpenFileMappingA`, `MapViewOfFile`,
  `OpenMutexA`, `WaitForSingleObject`) are inputs of the operations.
-/

namespace GameLink

/-! ## Integer types and Win32 constants -/

/-- Number of values of a `UINT16`. -/
def UINT16_MOD : Nat := 65536

/-- Number of values of a `UINT` (32 bits). -/
def UINT_MOD : Nat := 4294967296

/-- Largest `UINT`, the `UINT_MAX` of `<limits.h>`. -/
def UINT_MAX : Nat := 4294967295

/-- Wait outcome of `WaitForSingleObject`: the lock was acquired (`winbase.h`). -/
def WAIT_OBJECT_0 : Nat := 0

/-- Wait outcome: the previous owner ended without releasing (`0x80`). -/
def WAIT_ABANDONED : Nat := 128

/-- Wait outcome: the bounded wait elapsed (`0x102`). -/
def WAIT_TIMEOUT : Nat := 258

/-- Wait outcome: the wait itself failed (`0xFFFFFFFF`). -/
def WAIT_FAILED : Nat := 4294967295

/-! ## Shared memory structure (`#pragma pack(push, 1)`) -/

/-- Server to client frame: 32-bit RGBA up to `MAX_WIDTH` x `MAX_HEIGHT`. -/
structure sSharedMMapFrame_R1 where
  seq : Nat
  width : Nat
  height : Nat
  image_fmt : Nat
  reserved0 : Nat
  par_x : Nat
  par_y : Nat
  buffer : Nat → Nat

/-- Widest frame, `enum { MAX_WIDTH = 1280 }`. -/
def sSharedMMapFrame_R1.MAX_WIDTH : Nat := 1280

/-- Tallest frame, `enum { MAX_HEIGHT = 1024 }`. -/
def sSharedMMapFrame_R1.MAX_HEIGHT : Nat := 1024

/-- Capacity of the pixel buffer, `MAX_WIDTH * MAX_HEIGHT * 4`. -/
def sSharedMMapFrame_R1.MAX_PAYLOAD : Nat :=
  sSharedMMapFrame_R1.MAX_WIDTH * sSharedMMapFrame_R1.MAX_HEIGHT * 4

/-- Client to server input data.  The two `float` deltas are kept as their raw
32-bit patterns; `keyb_state` is declared `UINT keyb_state[8]`. -/
structure sSharedMMapInput_R2 where
  mouse_dx : Nat
  mouse_dy : Nat
  ready : Nat
  mouse_btn : Nat
  keyb_state : Nat → Nat

/-- Words in the keyboard bitmap, the `8` of `UINT keyb_state[8]`. -/
def sSharedMMapInput_R2.KEYB_WORDS : Nat := 8

/-- Ready marker: input not ready. -/
def sSharedMMapInput_R2.READY_NO : Nat := 0

/-- Ready marker: input from GC. -/
def sSharedMMapInput_R2.READY_GC : Nat := 1

/-- Ready marker: input from another application. -/
def sSharedMMapInput_R2.READY_OTHER : Nat := 17

/-- Memory reading interface (`addr` and `data` hold `PEEK_LIMIT` entries). -/
structure sSharedMMapPeek_R2 where
  addr_count : Nat
  addr : Nat → Nat
  data : Nat → Nat

/-- Address that requests the program counter high byte. -/
def sSharedMMapPeek_R2.PEEK_SPECIAL_PC_H : Nat := UINT_MAX - 1

/-- Address that requests the program counter low byte. -/
def sSharedMMapPeek_R2.PEEK_SPECIAL_PC_L : Nat := UINT_MAX - 2

/-- Capacity of the peek arrays, `16 * 1024`. -/
def sSharedMMapPeek_R2.PEEK_LIMIT : Nat := 16 * 1024

/-- General buffer: a `UINT16` payload length and `BUFFER_SIZE` data bytes. -/
structure sSharedMMapBuffer_R1 where
  payload : Nat
  data : Nat → Nat

/-- Capacity of a general buffer, `64 * 1024`. -/
def sSharedMMapBuffer_R1.BUFFER_SIZE : Nat := 64 * 1024

/-- Audio control interface. -/
structure sSharedMMapAudio_R1 where
  master_vol_l : Nat
  master_vol_r : Nat

/-- Header flag: the host wants keyboard input. -/
def FLAG_WANT_KEYB : Nat := 1 <<< 0

/-- Header flag: the host wants mouse input. -/
def FLAG_WANT_MOUSE : Nat := 1 <<< 1

/-- Header flag: tracking only, no frame. -/
def FLAG_NO_FRAME : Nat := 1 <<< 2

/-- Header flag: paused. -/
def FLAG_PAUSED : Nat := 1 <<< 3

/-- Capacity of the system name field. -/
def SYSTEM_MAXLEN : Nat := 64

/-- Capacity of the program name field. -/
def PROGRAM_MAXLEN : Nat := 260

/-- Words of the program hash, the `4` of `UINT program_hash[4]`. -/
def PROGRAM_HASH_WORDS : Nat := 4

/-- Memory map, the top-level object. -/
structure sSharedMemoryMap_R4 where
  version : Nat
  flags : Nat
  system : Nat → Nat
  program : Nat → Nat
  program_hash : Fin PROGRAM_HASH_WORDS → Nat
  frame : sSharedMMapFrame_R1
  input : sSharedMMapInput_R2
  peek : sSharedMMapPeek_R2
  buf_tohost : sSharedMMapBuffer_R1
  buf_recv : sSharedMMapBuffer_R1
  audio : sSharedMMapAudio_R1
  ram_size : Nat
  input_other : sSharedMMapInput_R2

/-! ## Local data -/

/-- The process-wide variables of `GameLink.cpp` together with the shared
record they point at.

`g_p_shared_memory` is `true` when the pointer is non-null, and then it points
at `shm`.  `ramPointer` is `true` once it has been set to the address right
after the record.  `releaseCount` is not a program variable: it counts the
calls of `ReleaseMutex` made so far. -/
structure State where
  bReadyToProcess : Bool
  g_mutex_handle : Nat
  g_mmap_handle : Nat
  g_TrackOnly : Bool
  g_p_shared_memory : Bool
  ramPointer : Bool
  shm : sSharedMemoryMap_R4
  releaseCount : Nat

/-- Answers of the operating system during `Init`: the handle returned by
`OpenFileMappingA` (0 when the object does not exist), whether
`MapViewOfFile` returns a view, and the handle returned by `OpenMutexA`. -/
structure Win32 where
  OpenFileMappingA : Nat
  MapViewOfFile : Bool
  OpenMutexA : Nat

/-! ## Stores into the to-host channel -/

/-- One store of the command and bulk-write paths, in program order: to the
payload length of `buf_tohost`, to one byte of its data, or to the static
`bReadyToProcess`. -/
inductive Store where
  | payload (v : Nat)
  | data (i : Nat) (v : Nat)
  | ready (b : Bool)
  deriving DecidableEq, Repr

/-- Replace the data bytes of the to-host buffer. -/
def State.setToHostData (g : State) (d : Nat → Nat) : State :=
  { g with shm := { g.shm with buf_tohost := { g.shm.buf_tohost with data := d } } }

/-- Replace the payload length of the to-host buffer. -/
def State.setToHostPayload (g : State) (v : Nat) : State :=
  { g with shm := { g.shm with buf_tohost := { g.shm.buf_tohost with payload := v } } }

/-- Effect of one store. -/
def Store.exec : Store → State → State
  | Store.payload v, g => g.setToHostPayload v
  | Store.data i v, g =>
      g.setToHostData (fun j => if j = i then v else g.shm.buf_tohost.data j)
  | Store.ready b, g => { g with bReadyToProcess := b }

/-- Effect of a sequence of stores, first to last. -/
def execStores (ss : List Store) (g : State) : State :=
  ss.foldl (fun st s => s.exec st) g

/-- Byte-by-byte copy of `src` to the data buffer from offset `off` on
(`memcpy`, `std::copy`, and the character loop of `snprintf`). -/
def copyStores (off : Nat) : List Nat → List Store
  | [] => []
  | c :: cs => Store.data off c :: copyStores (off + 1) cs

/-- Stores of `snprintf(data, n, "%s", s.c_str())`: nothing when `n` is 0;
otherwise the characters of `s` up to its first zero byte, at most `n - 1` of
them, and then the terminating zero. -/
def snprintf_stores (n : Nat) (s : List Nat) : List Store :=
  if n = 0 then []
  else
    let body := (s.takeWhile (fun c => c != 0)).take (n - 1)
    copyStores 0 body ++ [Store.data body.length 0]

/-! ## Mutex methods -/

/-- Opens the named mutex and keeps its handle. -/
def GetMutex (os : Win32) (g : State) : Bool × State :=
  let g1 := { g with g_mutex_handle := os.OpenMutexA }
  if g1.g_mutex_handle = 0 then (false, g1) else (true, g1)

/-- Closes the mutex handle when there is one. -/
def CloseMutex (g : State) : State :=
  if g.g_mutex_handle ≠ 0 then { g with g_mutex_handle := 0 } else g

/-! ## Methods -/

/-- Stores of `SendCommand`: `sz = (UINT16)command.size() + 1` converted to
`UINT16`, the payload length, then the `snprintf` into the data. -/
def SendCommand_stores (command : List Nat) : List Store :=
  let sz := (command.length % UINT16_MOD + 1) % UINT16_MOD
  Store.payload sz :: snprintf_stores sz command

/-- Writes a command string to the to-host buffer. -/
def SendCommand (command : List Nat) (g : State) : Option State :=
  if g.g_p_shared_memory then some (execStores (SendCommand_stores command) g)
  else none

/-- The bytes of `":videonative"`. -/
def cmd_videonative : List Nat :=
  [58, 118, 105, 100, 101, 111, 110, 97, 116, 105, 118, 101]

/-- The bytes of `":pause"`. -/
def cmd_pause : List Nat := [58, 112, 97, 117, 115, 101]

/-- The bytes of `":reset"`. -/
def cmd_reset : List Nat := [58, 114, 101, 115, 101, 116]

/-- The bytes of `":shutdown"`. -/
def cmd_shutdown : List Nat := [58, 115, 104, 117, 116, 100, 111, 119, 110]

/-- The bytes of `":sdhr_on"`. -/
def cmd_sdhr_on : List Nat := [58, 115, 100, 104, 114, 95, 111, 110]

/-- The bytes of `":sdhr_off"`. -/
def cmd_sdhr_off : List Nat := [58, 115, 100, 104, 114, 95, 111, 102, 102]

/-- The bytes of `":sdhr_reset"`. -/
def cmd_sdhr_reset : List Nat := [58, 115, 100, 104, 114, 95, 114, 101, 115, 101, 116]

/-- The bytes of `":sdhr_process"`. -/
def cmd_sdhr_process : List Nat :=
  [58, 115, 100, 104, 114, 95, 112, 114, 111, 99, 101, 115, 115]

/-- The bytes of `":sdhr_write"`, the `gamelinkCmd` of `SDHR_write`. -/
def gamelinkCmd : List Nat := [58, 115, 100, 104, 114, 95, 119, 114, 105, 116, 101]

/-- Connects to the host: a no-op success when already connected; otherwise
opens the mapping, maps the view, seeds the peek region, remembers where the
RAM starts, opens the mutex and sends `":videonative"`.  When the view or the
mutex is missing the mapping handle is closed and the pointer reset. -/
def Init (os : Win32) (g : State) : Option (Nat × State) :=
  if g.g_p_shared_memory then some (1, g)
  else
    let g1 := { g with g_mmap_handle := os.OpenFileMappingA }
    if g1.g_mmap_handle ≠ 0 then
      let g2 := { g1 with g_p_shared_memory := os.MapViewOfFile }
      let tidy := fun (st : State) =>
        { st with g_mmap_handle := 0, g_p_shared_memory := false }
      if g2.g_p_shared_memory then
        let g3 := { g2 with shm := { g2.shm with peek := { g2.shm.peek with addr_count := 2 } } }
        let g4 := { g3 with shm := { g3.shm with peek := { g3.shm.peek with
          addr := fun j => if j = 0 then sSharedMMapPeek_R2.PEEK_SPECIAL_PC_H % UINT_MOD
                           else g3.shm.peek.addr j } } }
        let g5 := { g4 with shm := { g4.shm with peek := { g4.shm.peek with
          addr := fun j => if j = 1 then sSharedMMapPeek_R2.PEEK_SPECIAL_PC_L % UINT_MOD
                           else g4.shm.peek.addr j } } }
        let g6 := { g5 with ramPointer := true }
        match GetMutex os g6 with
        | (true, g7) => (SendCommand cmd_videonative g7).map (fun g8 => (1, g8))
        | (false, g7) => some (0, tidy g7)
      else some (0, tidy g2)
    else some (0, g1)

/-- Releases the mutex handle and forgets the mapping pointer. -/
def Destroy (g : State) : State :=
  { CloseMutex g with g_p_shared_memory := false }

/-- Bytes of the C string stored in a `cap`-byte field: those before the first
zero byte (all `cap` bytes when the field holds no zero). -/
def readCString (cap : Nat) (field : Nat → Nat) : List Nat :=
  ((List.range cap).map field).takeWhile (fun c => c != 0)

/-- Name of the emulated program, empty when not connected. -/
def GetEmulatedProgramName (g : State) : List Nat :=
  if g.g_p_shared_memory then readCString PROGRAM_MAXLEN g.shm.program else []

/-- Declared RAM size converted to `int`, 0 when not connected. -/
def GetMemorySize (g : State) : Int :=
  if g.g_p_shared_memory then
    (if g.shm.ram_size < 2147483648 then (g.shm.ram_size : Int)
     else (g.shm.ram_size : Int) - 4294967296)
  else 0

/-- Base of the RAM window (whether `ramPointer` has been set). -/
def GetMemoryBasePointer (g : State) : Bool :=
  g.ramPointer

/-- Byte `k` (0 is the lowest) of an integer stored little-endian, the byte
order of the Windows targets of this code. -/
def byteLE (v k : Nat) : Nat :=
  (v / 256 ^ k) % 256

/-- The byte that lies `off` bytes after the end of `peek.data` in the packed
record, where no padding separates the fields: the two bytes of
`buf_tohost.payload`, `buf_tohost.data`, the two bytes of `buf_recv.payload`,
`buf_recv.data`, the two bytes of `audio`, the four bytes of `ram_size`, and
`input_other` (two `float`, `ready`, `mouse_btn`, then the `UINT` words of
`keyb_state`, whose indices from 8 on stand for the memory after the
record). -/
def bytesAfterPeekData (m : sSharedMemoryMap_R4) (off : Nat) : Nat :=
  let B := sSharedMMapBuffer_R1.BUFFER_SIZE
  let recv := 2 + B
  let audio := recv + 2 + B
  let other := audio + 2 + 4
  if off < 2 then byteLE m.buf_tohost.payload off
  else if off < recv then m.buf_tohost.data (off - 2)
  else if off < recv + 2 then byteLE m.buf_recv.payload (off - recv)
  else if off < audio then m.buf_recv.data (off - (recv + 2))
  else if off = audio then m.audio.master_vol_l
  else if off = audio + 1 then m.audio.master_vol_r
  else if off < other then byteLE m.ram_size (off - (audio + 2))
  else if off < other + 4 then byteLE m.input_other.mouse_dx (off - other)
  else if off < other + 8 then byteLE m.input_other.mouse_dy (off - (other + 4))
  else if off = other + 8 then m.input_other.ready
  else if off = other + 9 then m.input_other.mouse_btn
  else byteLE (m.input_other.keyb_state ((off - (other + 10)) / 4)) ((off - (other + 10)) % 4)

/-- The byte read by `peek.data[position]`: a result byte when `position` is
inside the array of `PEEK_LIMIT` bytes, otherwise the byte of the packed
record that many bytes further on. -/
def peek_data_read (m : sSharedMemoryMap_R4) (position : Nat) : Nat :=
  if position < sSharedMMapPeek_R2.PEEK_LIMIT then m.peek.data position
  else bytesAfterPeekData m (position - sSharedMMapPeek_R2.PEEK_LIMIT)

/-- Result byte of the peek channel at `position`, 0 when not connected or when
`position` is not below the address count.  The only check is against the
address count, so the read is `peek_data_read`. -/
def GetPeekAt (position : Nat) (g : State) : Nat :=
  if g.g_p_shared_memory then
    (if position < g.shm.peek.addr_count then peek_data_read g.shm position else 0)
  else 0

/-- Whether the link is connected. -/
def IsActive (g : State) : Bool :=
  g.g_p_shared_memory

/-- Whether the host runs in tracking-only mode. -/
def IsTrackingOnly (g : State) : Option Bool :=
  if g.g_p_shared_memory then some (decide (g.shm.flags &&& FLAG_NO_FRAME ≠ 0)) else none

/-- Sends `":pause"`. -/
def Pause (g : State) : Option State := SendCommand cmd_pause g

/-- Sends `":reset"`. -/
def Reset (g : State) : Option State := SendCommand cmd_reset g

/-- Sends `":shutdown"`. -/
def Shutdown (g : State) : Option State := SendCommand cmd_shutdown g

/-- Sends `":sdhr_on"`. -/
def SDHR_on (g : State) : Option State := SendCommand cmd_sdhr_on g

/-- Sends `":sdhr_off"`. -/
def SDHR_off (g : State) : Option State := SendCommand cmd_sdhr_off g

/-- Sends `":sdhr_reset"`. -/
def SDHR_reset (g : State) : Option State := SendCommand cmd_sdhr_reset g

/-- Whether a bulk write is waiting to be processed. -/
def SDHR_IsReadyToProcess (g : State) : Bool :=
  g.bReadyToProcess

/-- One-shot consumer of the ready flag: when set, sends `":sdhr_process"`
and clears it; otherwise only a diagnostic is emitted. -/
def SDHR_process (g : State) : Option State :=
  if g.bReadyToProcess then
    (SendCommand cmd_sdhr_process g).map (fun g1 => { g1 with bReadyToProcess := false })
  else some g

/-- Stores of an accepted bulk write of the bytes `payload` with framed length
`sz`; `READY` is the enumerator `SDHR_CMD::READY`, declared in a header that
is not part of `GameLink.cpp`, stored after conversion to `uint8_t`. -/
def SDHR_write_stores (READY : Nat) (payload : List Nat) (sz : Nat) : List Store :=
  let p0 := 0
  let p1 := p0 + gamelinkCmd.length
  let p2 := p1 + payload.length
  copyStores p0 gamelinkCmd ++ copyStores p1 payload ++
    [Store.data p2 0, Store.data (p2 + 1) 0, Store.data (p2 + 2) (READY % 256),
     Store.payload sz, Store.ready true]

/-- The `UINT16 sz` of both overloads of `SDHR_write` for a payload of `n`
bytes: `n + gamelinkCmd.length() + 1 + 3` converted to `UINT16`. -/
def SDHR_write_sz (n : Nat) : Nat :=
  (n + gamelinkCmd.length + 1 + 3) % UINT16_MOD

/-- Bulk write, pointer and length overload: `buf` gives the byte at each
offset from the pointer, `buflength` is the `UINT16` length. -/
def SDHR_write (READY : Nat) (buf : Nat → Nat) (buflength : Nat) (g : State) :
    Option State :=
  let sz := SDHR_write_sz buflength
  if sz < buflength then some g
  else if g.g_p_shared_memory then
    some (execStores (SDHR_write_stores READY ((List.range buflength).map buf) sz) g)
  else none

/-- Bulk write, vector overload. -/
def SDHR_write_vector (READY : Nat) (v_data : List Nat) (g : State) : Option State :=
  let sz := SDHR_write_sz v_data.length
  if sz < v_data.length then some g
  else if g.g_p_shared_memory then
    some (execStores (SDHR_write_stores READY v_data sz) g)
  else none

/-- Sets both volumes, clamped to 100, under the lock; `dwWaitResult` is the
outcome of the 3000 ms wait. -/
def SetSoundVolume (main mockingboard : Nat) (dwWaitResult : Nat) (g : State) :
    Option State :=
  let main := if main < 0 then 0 else main
  let main := if main > 100 then 100 else main
  let mockingboard := if mockingboard < 0 then 0 else mockingboard
  let mockingboard := if mockingboard > 100 then 100 else mockingboard
  if dwWaitResult = WAIT_OBJECT_0 then
    if g.g_p_shared_memory then
      let g1 := { g with shm := { g.shm with audio := { g.shm.audio with master_vol_l := main } } }
      let g2 := { g1 with shm := { g1.shm with audio := { g1.shm.audio with master_vol_r := mockingboard } } }
      some { g2 with releaseCount := g2.releaseCount + 1 }
    else none
  else if dwWaitResult = WAIT_ABANDONED then
    some { g with releaseCount := g.releaseCount + 1 }
  else some g

/-- Reads the main volume under the lock, 0 unless the lock was acquired. -/
def GetSoundVolumeMain (dwWaitResult : Nat) (g : State) : Option (Int × State) :=
  let ret : Int := 0
  if dwWaitResult = WAIT_OBJECT_0 then
    if g.g_p_shared_memory then
      let ret : Int := g.shm.audio.master_vol_l
      some (ret, { g with releaseCount := g.releaseCount + 1 })
    else none
  else if dwWaitResult = WAIT_ABANDONED then
    some (ret, { g with releaseCount := g.releaseCount + 1 })
  else some (ret, g)

/-- Reads the Mockingboard volume under the lock, 0 unless the lock was
acquired. -/
def GetSoundVolumeMockingboard (dwWaitResult : Nat) (g : State) : Option (Int × State) :=
  let ret : Int := 0
  if dwWaitResult = WAIT_OBJECT_0 then
    if g.g_p_shared_memory then
      let ret : Int := g.shm.audio.master_vol_r
      some (ret, { g with releaseCount := g.releaseCount + 1 })
    else none
  else if dwWaitResult = WAIT_ABANDONED then
    some (ret, { g with releaseCount := g.releaseCount + 1 })
  else some (ret, g)

/-- Sets or clears the bit of `scancode` in the keyboard bitmap of the
secondary input region, under the lock. -/
def SendKeystroke (scancode : Nat) (isPressed : Bool) (dwWaitResult : Nat) (g : State) :
    Option State :=
  if dwWaitResult = WAIT_OBJECT_0 then
    if g.g_p_shared_memory then
      let scanbyte := scancode / 32
      let scanbit := (1 <<< (scancode % 32)) % UINT_MOD
      let g1 := { g with shm := { g.shm with input_other := { g.shm.input_other with
        ready := sSharedMMapInput_R2.READY_OTHER } } }
      let old := g1.shm.input_other.keyb_state
      let g2 :=
        if isPressed then
          { g1 with shm := { g1.shm with input_other := { g1.shm.input_other with
            keyb_state := fun w => if w = scanbyte then old scanbyte ||| scanbit else old w } } }
        else
          { g1 with shm := { g1.shm with input_other := { g1.shm.input_other with
            keyb_state := fun w =>
              if w = scanbyte then old scanbyte &&& (UINT_MAX - scanbit) else old w } } }
      some { g2 with releaseCount := g2.releaseCount + 1 }
    else none
  else if dwWaitResult = WAIT_ABANDONED then
    some { g with releaseCount := g.releaseCount + 1 }
  else some g

/-- Modelled from the spec: `sFramebufferInfo` is declared in `GameLink.h`,
which is not among the sources.  It carries the frame buffer (here: whether
the pointer was set), width, height, image format, buffer length in bytes,
pixel aspect ratio and the wants-mouse flag; the buffer length is taken as a
32-bit unsigned field. -/
structure sFramebufferInfo where
  frameBuffer : Bool
  width : Nat
  height : Nat
  imageFormat : Nat
  bufferLength : Nat
  parX : Nat
  parY : Nat
  wantsMouse : Bool
  deriving DecidableEq, Repr

/-- The value-initialised `sFramebufferInfo()`. -/
def sFramebufferInfo.zero : sFramebufferInfo :=
  { frameBuffer := false, width := 0, height := 0, imageFormat := 0, bufferLength := 0,
    parX := 0, parY := 0, wantsMouse := false }

/-- Snapshot of the frame region; `dwWaitResult` is the outcome of the
1000 ms wait.  Abandoned and failed waits return the value-initialised info;
every other outcome reads the frame region and releases the mutex. -/
def GetFrameBufferInfo (dwWaitResult : Nat) (g : State) : Option (sFramebufferInfo × State) :=
  let fbI := sFramebufferInfo.zero
  if dwWaitResult = WAIT_ABANDONED then
    some (fbI, { g with releaseCount := g.releaseCount + 1 })
  else if dwWaitResult = WAIT_FAILED then
    some (fbI, g)
  else if g.g_p_shared_memory then
    let f := g.shm.frame
    let fbI := { fbI with frameBuffer := true }
    let fbI := { fbI with width := f.width }
    let fbI := { fbI with height := f.height }
    let fbI := { fbI with imageFormat := f.image_fmt }
    let fbI :=
      if fbI.imageFormat = 0 then { fbI with bufferLength := 0 }
      else { fbI with bufferLength := (fbI.width * fbI.height * 4) % UINT_MOD }
    let fbI := { fbI with parX := f.par_x }
    let fbI := { fbI with parY := f.par_y }
    let fbI := { fbI with wantsMouse := decide (g.shm.flags &&& FLAG_WANT_MOUSE ≠ 0) }
    some (fbI, { g with releaseCount := g.releaseCount + 1 })
  else none

/-- Sequence number of the latest frame. -/
def GetFrameSequence (g : State) : Option Nat :=
  if g.g_p_shared_memory then some g.shm.frame.seq else none

/-! ## Helpers for stating properties -/

/-- A state with an all-zero record except that every data byte of the to-host
buffer holds `fill`; the link is connected when `active`. -/
def sampleState (active : Bool) (fill : Nat) : State :=
  let z : Nat → Nat := fun _ => 0
  let inp : sSharedMMapInput_R2 :=
    { mouse_dx := 0, mouse_dy := 0, ready := 0, mouse_btn := 0, keyb_state := z }
  { bReadyToProcess := false, g_mutex_handle := if active then 1 else 0,
    g_mmap_handle := if active then 1 else 0, g_TrackOnly := false,
    g_p_shared_memory := active, ramPointer := active,
    shm := { version := 4, flags := 0, system := z, program := z, program_hash := fun _ => 0,
             frame := { seq := 0, width := 0, height := 0, image_fmt := 0, reserved0 := 0,
                        par_x := 0, par_y := 0, buffer := z },
             input := inp,
             peek := { addr_count := 0, addr := z, data := z },
             buf_tohost := { payload := 0, data := fun _ => fill },
             buf_recv := { payload := 0, data := z },
             audio := { master_vol_l := 0, master_vol_r := 0 },
             ram_size := 0, input_other := inp },
    releaseCount := 0 }

/-- The connected sample state with a frame of the given width, height and
image format tag in the frame region. -/
def sampleFrameState (width height image_fmt : Nat) : State :=
  let g := sampleState true 255
  { g with shm := { g.shm with frame := { g.shm.frame with
      width := width, height := height, image_fmt := image_fmt } } }

/-- The to-host buffer `b` holds the command `S` as `SendCommand` frames it:
payload length `S.length + 1`, the bytes of `S` from index 0 on, and a zero
terminator at index `S.length`. -/
def HoldsCommand (b : sSharedMMapBuffer_R1) (S : List Nat) : Prop :=
  b.payload = S.length + 1 ∧ (∀ i, i < S.length → S[i]? = some (b.data i)) ∧
    b.data S.length = 0

/-- The to-host buffer `b` holds the bulk write of the bytes `payload`: the
11 bytes of `":sdhr_write"`, then the payload bytes in order, then the
trailer 0, 0, `(uint8_t)READY`; the payload length is `payload.length + 15`. -/
def BulkLayout (READY : Nat) (b : sSharedMMapBuffer_R1) (payload : List Nat) : Prop :=
  b.payload = payload.length + 15 ∧
    (∀ i, i < 11 → gamelinkCmd[i]? = some (b.data i)) ∧
    (∀ i, i < payload.length → payload[i]? = some (b.data (11 + i))) ∧
    b.data (11 + payload.length) = 0 ∧
    b.data (11 + payload.length + 1) = 0 ∧
    b.data (11 + payload.length + 2) = READY % 256

/-- The info `fbI` is the one derived from the frame region `f`: its width,
height, image format and pixel aspect ratio, and the buffer length computed
from them (0 for format 0, else width times height times 4 in 32 bits). -/
def InfoOfFrame (fbI : sFramebufferInfo) (f : sSharedMMapFrame_R1) : Prop :=
  fbI.width = f.width ∧ fbI.height = f.height ∧ fbI.imageFormat = f.image_fmt ∧
    fbI.parX = f.par_x ∧ fbI.parY = f.par_y ∧
    fbI.bufferLength = (if f.image_fmt = 0 then 0 else (f.width * f.height * 4) % UINT_MOD)

/-- Bits of a `UINT`. -/
def UINT_BITS : Nat := 32

/-- Bits held by the program hash field of a record: the words of the field,
a `UINT` each. -/
def program_hash_bits (m : sSharedMemoryMap_R4) : Nat :=
  (List.ofFn m.program_hash).length * UINT_BITS

/-- The connected sample state with the given address count in the peek
region, result bytes `100 + i % 100` at index `i`, and the given payload
length in the to-host buffer. -/
def samplePeekState (addr_count payload : Nat) : State :=
  let g := sampleState true 255
  { g with shm := { g.shm with
      peek := { g.shm.peek with addr_count := addr_count, data := fun i => 100 + i % 100 },
      buf_tohost := { g.shm.buf_tohost with payload := payload } } }

/-- Result of `k` calls of `SDHR_process` in a row. -/
def SDHR_process_n : Nat → State → Option State
  | 0, g => some g
  | k + 1, g => (SDHR_process g).bind (SDHR_process_n k)

end GameLink

namespace GameLink

/-! ## Lemmas on stores -/

@[simp] theorem execStores_nil (g : State) : execStores [] g = g := rfl

@[simp] theorem execStores_cons (s : Store) (ss : List Store) (g : State) :
    execStores (s :: ss) g = execStores ss (s.exec g) := rfl

theorem execStores_append (xs ys : List Store) (g : State) :
    execStores (xs ++ ys) g = execStores ys (execStores xs g) := by
  simp [execStores, List.foldl_append]

theorem setToHostData_twice (g : State) (d e : Nat → Nat) :
    (g.setToHostData d).setToHostData e = g.setToHostData e := rfl

/-- A byte copy changes nothing but the data bytes it addresses. -/
theorem execStores_copyStores (l : List Nat) (off : Nat) (g : State) :
    execStores (copyStores off l) g =
      g.setToHostData (fun j =>
        if off ≤ j ∧ j < off + l.length then l.getD (j - off) 0
        else g.shm.buf_tohost.data j) := by
  induction l generalizing off g with
  | nil =>
      simp only [copyStores, execStores_nil, List.length_nil, Nat.add_zero]
      have h : ∀ j, ¬ (off ≤ j ∧ j < off) := fun j hj => by omega
      simp [h, State.setToHostData]
  | cons c cs ih =>
      simp only [copyStores, execStores_cons, ih, Store.exec, setToHostData_twice]
      congr 1
      funext j
      simp only [State.setToHostData, List.length_cons]
      by_cases h1 : off + 1 ≤ j ∧ j < off + 1 + cs.length
      · have h2 : off ≤ j ∧ j < off + (cs.length + 1) := by omega
        have h3 : j - off = (j - (off + 1)) + 1 := by omega
        rw [if_pos h1, if_pos h2, h3, List.getD_cons_succ]
      · by_cases h4 : j = off
        · subst h4
          have h2 : j ≤ j ∧ j < j + (cs.length + 1) := by omega
          rw [if_neg h1, if_pos rfl, if_pos h2, Nat.sub_self, List.getD_cons_zero]
        · have h2 : ¬ (off ≤ j ∧ j < off + (cs.length + 1)) := by omega
          rw [if_neg h1, if_neg h4, if_neg h2]

theorem getElem_opt_eq_getD (l : List Nat) (i : Nat) (h : i < l.length) :
    l[i]? = some (l.getD i 0) := by
  simp [List.getD, List.getElem?_eq_getElem h]

/-- Data bytes, payload length and the rest of the state after the stores of
`SendCommand` for a command without zero byte that is shorter than 65535. -/
theorem execStores_SendCommand (S : List Nat) (g : State)
    (hnul : ∀ c ∈ S, c ≠ 0) (hlen : S.length ≤ 65534) :
    execStores (SendCommand_stores S) g =
      (g.setToHostPayload (S.length + 1)).setToHostData (fun j =>
        if j = S.length then 0
        else if j < S.length then S.getD j 0 else g.shm.buf_tohost.data j) := by
  have hsz : (S.length % UINT16_MOD + 1) % UINT16_MOD = S.length + 1 := by
    simp only [UINT16_MOD]; omega
  have htw : S.takeWhile (fun c => c != 0) = S := by
    rw [List.takeWhile_eq_self_iff]
    intro c hc
    simpa using hnul c hc
  simp only [SendCommand_stores, snprintf_stores, hsz, htw, Nat.add_sub_cancel,
    List.take_length, Nat.succ_ne_zero, if_false, execStores_cons, execStores_append,
    execStores_copyStores, Store.exec, execStores_nil, setToHostData_twice]
  congr 1
  funext j
  simp only [State.setToHostData, State.setToHostPayload, Nat.zero_le, true_and, Nat.zero_add,
    Nat.sub_zero]

theorem SendCommand_active (S : List Nat) (g : State) (hact : g.g_p_shared_memory = true) :
    SendCommand S g = some (execStores (SendCommand_stores S) g) := by
  simp [SendCommand, hact]

/-- A command of exactly 65535 bytes makes `sz` wrap to 0: the only store is
the payload length 0. -/
theorem SendCommand_stores_of_length (S : List Nat) (h : S.length = 65535) :
    SendCommand_stores S = [Store.payload 0] := by
  simp [SendCommand_stores, snprintf_stores, UINT16_MOD, h]

theorem holdsCommand_SendCommand (S : List Nat) (g : State)
    (hnul : ∀ c ∈ S, c ≠ 0) (hlen : S.length ≤ 65534) :
    HoldsCommand (execStores (SendCommand_stores S) g).shm.buf_tohost S := by
  rw [execStores_SendCommand S g hnul hlen]
  refine ⟨rfl, ?_, ?_⟩
  · intro i hi
    have hne : i ≠ S.length := by omega
    simp only [State.setToHostData, State.setToHostPayload, if_neg hne, if_pos hi]
    exact getElem_opt_eq_getD S i hi
  · simp [State.setToHostData]

theorem gamelinkCmd_length : gamelinkCmd.length = 11 := rfl

/-- Data bytes after the stores of an accepted bulk write. -/
theorem execStores_SDHR_write_data (READY : Nat) (payload : List Nat) (sz : Nat) (g : State)
    (j : Nat) :
    (execStores (SDHR_write_stores READY payload sz) g).shm.buf_tohost.data j =
      if j = 11 + payload.length + 2 then READY % 256
      else if j = 11 + payload.length + 1 then 0
      else if j = 11 + payload.length then 0
      else if 11 ≤ j ∧ j < 11 + payload.length then payload.getD (j - 11) 0
      else if j < 11 then gamelinkCmd.getD j 0
      else g.shm.buf_tohost.data j := by
  simp only [SDHR_write_stores, execStores_append, execStores_copyStores, execStores_cons,
    execStores_nil, Store.exec, State.setToHostData, State.setToHostPayload,
    gamelinkCmd_length, Nat.zero_add, Nat.sub_zero, Nat.zero_le, true_and]

/-- Payload length, ready flag and mapping pointer after the stores of an
accepted bulk write. -/
theorem execStores_SDHR_write_rest (READY : Nat) (payload : List Nat) (sz : Nat) (g : State) :
    (execStores (SDHR_write_stores READY payload sz) g).shm.buf_tohost.payload = sz ∧
    (execStores (SDHR_write_stores READY payload sz) g).bReadyToProcess = true ∧
    (execStores (SDHR_write_stores READY payload sz) g).g_p_shared_memory =
      g.g_p_shared_memory := by
  simp only [SDHR_write_stores, execStores_append, execStores_copyStores, execStores_cons,
    execStores_nil, Store.exec, State.setToHostData, State.setToHostPayload, and_self]

/-- The overflow check of `SDHR_write` passes exactly when the framed length
fits 16 bits. -/
theorem SDHR_write_sz_accept_iff (n : Nat) : ¬ (SDHR_write_sz n < n) ↔ n + 15 ≤ 65535 := by
  simp only [SDHR_write_sz, gamelinkCmd_length, UINT16_MOD]
  omega

theorem SDHR_write_sz_of_accept (n : Nat) (h : ¬ (SDHR_write_sz n < n)) :
    SDHR_write_sz n = n + 15 := by
  have h1 := (SDHR_write_sz_accept_iff n).mp h
  simp only [SDHR_write_sz, gamelinkCmd_length, UINT16_MOD]
  omega

theorem SDHR_write_accept (READY : Nat) (buf : Nat → Nat) (n : Nat) (g : State)
    (hact : g.g_p_shared_memory = true) (hacc : ¬ (SDHR_write_sz n < n)) :
    SDHR_write READY buf n g =
      some (execStores (SDHR_write_stores READY ((List.range n).map buf) (n + 15)) g) := by
  simp [SDHR_write, hact, hacc, SDHR_write_sz_of_accept n hacc]

theorem SDHR_write_vector_accept (READY : Nat) (v_data : List Nat) (g : State)
    (hact : g.g_p_shared_memory = true) (hacc : ¬ (SDHR_write_sz v_data.length < v_data.length)) :
    SDHR_write_vector READY v_data g =
      some (execStores (SDHR_write_stores READY v_data (v_data.length + 15)) g) := by
  simp [SDHR_write_vector, hact, hacc, SDHR_write_sz_of_accept v_data.length hacc]

/-- The layout a bulk write of `payload` leaves in the to-host buffer. -/
theorem bulkLayout_SDHR_write (READY : Nat) (payload : List Nat) (g : State) :
    BulkLayout READY (execStores (SDHR_write_stores READY payload (payload.length + 15))
      g).shm.buf_tohost payload := by
  refine ⟨(execStores_SDHR_write_rest READY payload _ g).1, ?_, ?_, ?_, ?_, ?_⟩
  · intro i hi
    rw [execStores_SDHR_write_data]
    have h1 : i ≠ 11 + payload.length + 2 := by omega
    have h2 : i ≠ 11 + payload.length + 1 := by omega
    have h3 : i ≠ 11 + payload.length := by omega
    have h4 : ¬ (11 ≤ i ∧ i < 11 + payload.length) := by omega
    rw [if_neg h1, if_neg h2, if_neg h3, if_neg h4, if_pos hi]
    exact getElem_opt_eq_getD gamelinkCmd i (by rw [gamelinkCmd_length]; exact hi)
  · intro i hi
    rw [execStores_SDHR_write_data]
    have h1 : 11 + i ≠ 11 + payload.length + 2 := by omega
    have h2 : 11 + i ≠ 11 + payload.length + 1 := by omega
    have h3 : 11 + i ≠ 11 + payload.length := by omega
    have h4 : 11 ≤ 11 + i ∧ 11 + i < 11 + payload.length := by omega
    rw [if_neg h1, if_neg h2, if_neg h3, if_pos h4, Nat.add_sub_cancel_left]
    exact getElem_opt_eq_getD payload i hi
  · rw [execStores_SDHR_write_data]
    have h1 : 11 + payload.length ≠ 11 + payload.length + 2 := by omega
    have h2 : 11 + payload.length ≠ 11 + payload.length + 1 := by omega
    rw [if_neg h1, if_neg h2, if_pos rfl]
  · rw [execStores_SDHR_write_data]
    have h1 : 11 + payload.length + 1 ≠ 11 + payload.length + 2 := by omega
    rw [if_neg h1, if_pos rfl]
  · rw [execStores_SDHR_write_data, if_pos rfl]

/-- With the ready flag clear, `SDHR_process` changes nothing. -/
theorem SDHR_process_idle (g : State) (h : g.bReadyToProcess = false) :
    SDHR_process g = some g := by
  simp [SDHR_process, h]

theorem SDHR_process_n_idle (k : Nat) (g : State) (h : g.bReadyToProcess = false) :
    SDHR_process_n k g = some g := by
  induction k with
  | zero => rfl
  | succ k ih => simp [SDHR_process_n, SDHR_process_idle g h, ih]

/-- With the ready flag set on an active link, `SDHR_process` sends
`":sdhr_process"` and clears the flag; after that it is idle. -/
theorem SDHR_process_armed (g : State) (hact : g.g_p_shared_memory = true)
    (h : g.bReadyToProcess = true) :
    ∃ g2, SDHR_process g = some g2 ∧ HoldsCommand g2.shm.buf_tohost cmd_sdhr_process ∧
      SDHR_IsReadyToProcess g2 = false ∧ ∀ k, SDHR_process_n k g2 = some g2 := by
  refine ⟨{ execStores (SendCommand_stores cmd_sdhr_process) g with bReadyToProcess := false },
    ?_, ?_, rfl, ?_⟩
  · simp [SDHR_process, h, SendCommand_active _ _ hact]
  · exact holdsCommand_SendCommand cmd_sdhr_process g (by decide) (by decide)
  · intro k
    exact SDHR_process_n_idle k _ rfl

/-- For a bit position below 32 the `UINT` conversion of `1 << k` is `2 ^ k`. -/
theorem scanbit_eq (k : Nat) (hk : k < 32) : (1 <<< k) % UINT_MOD = 2 ^ k := by
  rw [Nat.one_shiftLeft]
  apply Nat.mod_eq_of_lt
  have : 2 ^ k < 2 ^ 32 := Nat.pow_lt_pow_right (by decide) hk
  simpa [UINT_MOD] using this

/-- State after a keystroke with the lock acquired. -/
theorem SendKeystroke_acquired (scancode : Nat) (isPressed : Bool) (g : State)
    (hact : g.g_p_shared_memory = true) :
    SendKeystroke scancode isPressed WAIT_OBJECT_0 g =
      some { g with
        shm := { g.shm with input_other := { g.shm.input_other with
          ready := sSharedMMapInput_R2.READY_OTHER,
          keyb_state := fun w =>
            if w = scancode / 32 then
              (if isPressed then
                g.shm.input_other.keyb_state (scancode / 32) ||| 2 ^ (scancode % 32)
              else
                g.shm.input_other.keyb_state (scancode / 32) &&&
                  (UINT_MAX - 2 ^ (scancode % 32)))
            else g.shm.input_other.keyb_state w } },
        releaseCount := g.releaseCount + 1 } := by
  have hk := scanbit_eq (scancode % 32) (Nat.mod_lt _ (by decide))
  unfold SendKeystroke
  rw [if_pos rfl, if_pos hact]
  cases isPressed
  · simp only [hk, Bool.false_eq_true, if_false]
  · simp only [hk, if_true]

/-- Ready marker and keyboard bitmap after a keystroke with the lock
acquired. -/
theorem SendKeystroke_acquired_words (scancode : Nat) (isPressed : Bool) (g : State)
    (hact : g.g_p_shared_memory = true) :
    ∃ g1, SendKeystroke scancode isPressed WAIT_OBJECT_0 g = some g1 ∧
      g1.g_p_shared_memory = true ∧
      g1.shm.input_other.ready = sSharedMMapInput_R2.READY_OTHER ∧
      ∀ w, g1.shm.input_other.keyb_state w =
        if w = scancode / 32 then
          (if isPressed then
            g.shm.input_other.keyb_state (scancode / 32) ||| 2 ^ (scancode % 32)
          else
            g.shm.input_other.keyb_state (scancode / 32) &&& (UINT_MAX - 2 ^ (scancode % 32)))
        else g.shm.input_other.keyb_state w :=
  ⟨_, SendKeystroke_acquired scancode isPressed g hact, hact, rfl, fun _ => rfl⟩

/-- On the reading path `GetFrameBufferInfo` returns, with the width, height
and format of the frame region and the buffer length derived from them. -/
theorem GetFrameBufferInfo_read (dwWaitResult : Nat) (g : State)
    (hact : g.g_p_shared_memory = true)
    (h1 : dwWaitResult ≠ WAIT_ABANDONED) (h2 : dwWaitResult ≠ WAIT_FAILED) :
    ∃ fbI g1, GetFrameBufferInfo dwWaitResult g = some (fbI, g1) ∧
      fbI.width = g.shm.frame.width ∧ fbI.height = g.shm.frame.height ∧
      fbI.imageFormat = g.shm.frame.image_fmt ∧
      fbI.bufferLength =
        if g.shm.frame.image_fmt = 0 then 0
        else (g.shm.frame.width * g.shm.frame.height * 4) % UINT_MOD := by
  unfold GetFrameBufferInfo
  rw [if_neg h1, if_neg h2, if_pos hact]
  refine ⟨_, _, rfl, ?_⟩
  by_cases hf : g.shm.frame.image_fmt = 0
  · simp [hf]
  · simp [hf]

/-- The stores of the to-host channel leave the peek region alone. -/
theorem execStores_peek (ss : List Store) (g : State) :
    (execStores ss g).shm.peek = g.shm.peek := by
  induction ss generalizing g with
  | nil => rfl
  | cons s ss ih =>
      rw [execStores_cons, ih]
      cases s <;> rfl

/-- Outcome of `Init` from the disconnected state, by the answers of the
operating system. -/
theorem Init_disconnected (os : Win32) (g : State) (hnull : g.g_p_shared_memory = false) :
    Init os g =
      if os.OpenFileMappingA ≠ 0 then
        if os.MapViewOfFile = true then
          if os.OpenMutexA = 0 then
            some (0, { g with
              g_mmap_handle := 0, g_p_shared_memory := false, ramPointer := true,
              g_mutex_handle := os.OpenMutexA,
              shm := { g.shm with peek := { g.shm.peek with
                addr_count := 2,
                addr := fun j =>
                  if j = 1 then sSharedMMapPeek_R2.PEEK_SPECIAL_PC_L % UINT_MOD
                  else if j = 0 then sSharedMMapPeek_R2.PEEK_SPECIAL_PC_H % UINT_MOD
                  else g.shm.peek.addr j } } })
          else
            some (1, execStores (SendCommand_stores cmd_videonative) { g with
              g_mmap_handle := os.OpenFileMappingA, g_p_shared_memory := true,
              ramPointer := true, g_mutex_handle := os.OpenMutexA,
              shm := { g.shm with peek := { g.shm.peek with
                addr_count := 2,
                addr := fun j =>
                  if j = 1 then sSharedMMapPeek_R2.PEEK_SPECIAL_PC_L % UINT_MOD
                  else if j = 0 then sSharedMMapPeek_R2.PEEK_SPECIAL_PC_H % UINT_MOD
                  else g.shm.peek.addr j } } })
        else some (0, { g with g_mmap_handle := 0, g_p_shared_memory := false })
      else some (0, { g with g_mmap_handle := os.OpenFileMappingA }) := by
  unfold Init
  rw [hnull]
  by_cases hm : os.OpenFileMappingA = 0
  · simp [hm]
  · by_cases hv : os.MapViewOfFile = true
    · by_cases hx : os.OpenMutexA = 0
      · simp [hm, hv, hx, GetMutex]
      · simp [hm, hv, hx, GetMutex, SendCommand]
    · simp [hm, hv]

/-- A byte copy consists of data stores only. -/
theorem copyStores_all_data (l : List Nat) (off : Nat) :
    ∀ s ∈ copyStores off l, ∃ i v, s = Store.data i v := by
  induction l generalizing off with
  | nil => intro s hs; simp [copyStores] at hs
  | cons c cs ih =>
      intro s hs
      simp only [copyStores, List.mem_cons] at hs
      rcases hs with h | h
      · exact ⟨off, c, h⟩
      · exact ih (off + 1) s h

/-- A byte copy stores byte `i` of the source at offset `off + i`. -/
theorem copyStores_mem (l : List Nat) (off i c : Nat) (h : l[i]? = some c) :
    Store.data (off + i) c ∈ copyStores off l := by
  induction l generalizing off i with
  | nil => simp at h
  | cons d ds ih =>
      cases i with
      | zero =>
          simp only [List.getElem?_cons_zero, Option.some.injEq] at h
          subst h
          simp [copyStores]
      | succ k =>
          simp only [List.getElem?_cons_succ] at h
          have h1 := ih (off + 1) k h
          have e : off + 1 + k = off + (k + 1) := by omega
          rw [e] at h1
          simp only [copyStores, List.mem_cons]
          exact Or.inr h1

/-- Order of the stores of a bulk write: data stores of the tag, of every
payload byte and of the trailer, then the payload length, then the ready
flag. -/
theorem SDHR_write_stores_order (READY : Nat) (payload : List Nat) (sz : Nat) :
    ∃ pre, SDHR_write_stores READY payload sz = pre ++ [Store.payload sz, Store.ready true] ∧
      (∀ s ∈ pre, ∃ i v, s = Store.data i v) ∧
      (∀ i c, gamelinkCmd[i]? = some c → Store.data i c ∈ pre) ∧
      (∀ i c, payload[i]? = some c → Store.data (11 + i) c ∈ pre) ∧
      Store.data (11 + payload.length) 0 ∈ pre ∧
      Store.data (11 + payload.length + 1) 0 ∈ pre ∧
      Store.data (11 + payload.length + 2) (READY % 256) ∈ pre := by
  refine ⟨copyStores 0 gamelinkCmd ++ copyStores 11 payload ++
    [Store.data (11 + payload.length) 0, Store.data (11 + payload.length + 1) 0,
     Store.data (11 + payload.length + 2) (READY % 256)], ?_, ?_, ?_, ?_, ?_, ?_, ?_⟩
  · simp [SDHR_write_stores, gamelinkCmd_length]
  · intro s hs
    simp only [List.mem_append, List.mem_cons, List.mem_singleton, List.not_mem_nil,
      or_false] at hs
    rcases hs with (h | h) | h | h | h
    · exact copyStores_all_data _ _ s h
    · exact copyStores_all_data _ _ s h
    · exact ⟨_, _, h⟩
    · exact ⟨_, _, h⟩
    · exact ⟨_, _, h⟩
  · intro i c h
    have h1 := copyStores_mem gamelinkCmd 0 i c h
    rw [Nat.zero_add] at h1
    simp [h1]
  · intro i c h
    have h1 := copyStores_mem payload 11 i c h
    simp [h1]
  · simp
  · simp
  · simp

/-- A store sequence without a store to the ready flag leaves the flag as it
was. -/
theorem execStores_flag (ss : List Store) (g : State)
    (h : ∀ s ∈ ss, ∀ b, s ≠ Store.ready b) :
    (execStores ss g).bReadyToProcess = g.bReadyToProcess := by
  induction ss generalizing g with
  | nil => rfl
  | cons s ss ih =>
      rw [execStores_cons, ih _ (fun t ht => h t (List.mem_cons_of_mem _ ht))]
      cases s with
      | payload v => rfl
      | data i v => rfl
      | ready b => exact absurd rfl (h _ (List.mem_cons_self _ _) b)

/-- The stores of `SendCommand` never address the ready flag. -/
theorem SendCommand_stores_no_ready (S : List Nat) :
    ∀ s ∈ SendCommand_stores S, ∀ b, s ≠ Store.ready b := by
  intro s hs b
  simp only [SendCommand_stores, List.mem_cons] at hs
  rcases hs with h | h
  · rw [h]; exact Store.noConfusion
  · unfold snprintf_stores at h
    split at h
    · simp at h
    · simp only [List.mem_append, List.mem_singleton] at h
      rcases h with h | h
      · obtain ⟨i, v, e⟩ := copyStores_all_data _ _ s h
        rw [e]; exact Store.noConfusion
      · rw [h]; exact Store.noConfusion

/-- `SendCommand` leaves the ready flag as it was. -/
theorem SendCommand_flag (S : List Nat) (g g1 : State) (h : SendCommand S g = some g1) :
    g1.bReadyToProcess = g.bReadyToProcess := by
  unfold SendCommand at h
  split at h
  · have e := Option.some.inj h
    rw [← e]
    exact execStores_flag _ g (SendCommand_stores_no_ready S)
  · exact absurd h (by simp)

/-! ## Command channel: framing -/

/-- C1 (as amended): for every command string `S` of length `L ≤ 65534` that
contains no zero byte, `SendCommand S` on an active link returns, the payload
length of the to-host buffer is `L + 1`, its first `L` bytes are the bytes of
`S`, and the byte at index `L` is the zero terminator. -/
theorem SendCommand_framing (S : List Nat) (g : State)
    (hact : g.g_p_shared_memory = true) (hnul : ∀ c ∈ S, c ≠ 0)
    (hlen : S.length ≤ 65534) :
    ∃ g1, SendCommand S g = some g1 ∧ HoldsCommand g1.shm.buf_tohost S := by
  refine ⟨execStores (SendCommand_stores S) g, ?_, holdsCommand_SendCommand S g hnul hlen⟩
  simp [SendCommand, hact]

/-- C1, witness: the command `":pause"` on a connected sample state. -/
theorem SendCommand_framing_witness :
    (sampleState true 255).g_p_shared_memory = true ∧ (∀ c ∈ cmd_pause, c ≠ 0) ∧
      cmd_pause.length ≤ 65534 ∧
      ∃ g1, SendCommand cmd_pause (sampleState true 255) = some g1 ∧
        HoldsCommand g1.shm.buf_tohost cmd_pause :=
  ⟨rfl, by decide, by decide,
    SendCommand_framing cmd_pause (sampleState true 255) rfl (by decide) (by decide)⟩

/-- C1, counterexample: the framing fails for a command with a zero byte
inside (`"a\0b"`: the byte at index 2 keeps its old value 255 instead of
`'b'`), and for a command of 65535 bytes (the payload length becomes 0, not
65536). -/
theorem SendCommand_framing_counterexample :
    (¬ ∃ g1, SendCommand [97, 0, 98] (sampleState true 255) = some g1 ∧
        HoldsCommand g1.shm.buf_tohost [97, 0, 98]) ∧
    (¬ ∃ g1, SendCommand (List.replicate 65535 65) (sampleState true 255) = some g1 ∧
        HoldsCommand g1.shm.buf_tohost (List.replicate 65535 65)) := by
  constructor
  · rintro ⟨g1, h1, -, h2, -⟩
    have e : SendCommand [97, 0, 98] (sampleState true 255) =
        some (execStores (SendCommand_stores [97, 0, 98]) (sampleState true 255)) := rfl
    rw [e] at h1
    have e1 := Option.some.inj h1
    subst e1
    have h3 := h2 2 (by decide)
    have e2 : (execStores (SendCommand_stores [97, 0, 98])
        (sampleState true 255)).shm.buf_tohost.data 2 = 255 := by decide
    rw [e2] at h3
    exact absurd h3 (by decide)
  · rintro ⟨g1, h1, h2, -, -⟩
    rw [SendCommand_active _ _ rfl] at h1
    have e1 := Option.some.inj h1
    subst e1
    rw [SendCommand_stores_of_length _ (List.length_replicate 65535 65),
      List.length_replicate] at h2
    exact absurd h2 (by decide)

/-! ## Bulk write protocol -/

/-- C2: for every payload of `n` bytes that `SDHR_write` accepts (the overflow
check passes), on an active link the call returns and the to-host data begins
with the 11 bytes of `":sdhr_write"`, followed by the `n` payload bytes
unchanged and in order, followed by the trailer 0, 0, READY opcode (the byte
`(uint8_t)SDHR_CMD::READY`, which is `READY` itself for a one-byte opcode); the
payload length field is `n + 15`.  Both overloads. -/
theorem SDHR_write_layout (READY : Nat) (buf : Nat → Nat) (n : Nat) (v_data : List Nat)
    (g : State) (hact : g.g_p_shared_memory = true)
    (hacc : ¬ (SDHR_write_sz n < n))
    (haccv : ¬ (SDHR_write_sz v_data.length < v_data.length)) :
    (∃ g1, SDHR_write READY buf n g = some g1 ∧
      g1.shm.buf_tohost.payload = n + 15 ∧
      (∀ i, i < 11 → gamelinkCmd[i]? = some (g1.shm.buf_tohost.data i)) ∧
      (∀ i, i < n → g1.shm.buf_tohost.data (11 + i) = buf i) ∧
      g1.shm.buf_tohost.data (11 + n) = 0 ∧
      g1.shm.buf_tohost.data (11 + n + 1) = 0 ∧
      g1.shm.buf_tohost.data (11 + n + 2) = READY % 256 ∧
      (READY < 256 → g1.shm.buf_tohost.data (11 + n + 2) = READY)) ∧
    (∃ g2, SDHR_write_vector READY v_data g = some g2 ∧
      BulkLayout READY g2.shm.buf_tohost v_data ∧
      (READY < 256 → g2.shm.buf_tohost.data (11 + v_data.length + 2) = READY)) := by
  constructor
  · refine ⟨_, SDHR_write_accept READY buf n g hact hacc, ?_⟩
    have h := bulkLayout_SDHR_write READY ((List.range n).map buf) g
    simp only [BulkLayout, List.length_map, List.length_range] at h
    obtain ⟨h1, h2, h3, h4, h5, h6⟩ := h
    refine ⟨h1, h2, ?_, h4, h5, h6, ?_⟩
    · intro i hi
      have h7 := h3 i hi
      rw [List.getElem?_map, List.getElem?_range hi] at h7
      exact (Option.some.inj h7).symm
    · intro hR
      rw [h6, Nat.mod_eq_of_lt hR]
  · refine ⟨_, SDHR_write_vector_accept READY v_data g hact haccv,
      bulkLayout_SDHR_write READY v_data g, ?_⟩
    intro hR
    rw [(bulkLayout_SDHR_write READY v_data g).2.2.2.2.2, Nat.mod_eq_of_lt hR]

/-- C2, witness: the three bytes 200, 201, 202 through both overloads. -/
theorem SDHR_write_layout_witness :
    (sampleState true 255).g_p_shared_memory = true ∧ ¬ (SDHR_write_sz 3 < 3) ∧
    ¬ (SDHR_write_sz [200, 201, 202].length < [200, 201, 202].length) ∧
    ((∃ g1, SDHR_write 16 (fun i => 200 + i) 3 (sampleState true 255) = some g1 ∧
      g1.shm.buf_tohost.payload = 3 + 15 ∧
      (∀ i, i < 11 → gamelinkCmd[i]? = some (g1.shm.buf_tohost.data i)) ∧
      (∀ i, i < 3 → g1.shm.buf_tohost.data (11 + i) = (fun i => 200 + i) i) ∧
      g1.shm.buf_tohost.data (11 + 3) = 0 ∧
      g1.shm.buf_tohost.data (11 + 3 + 1) = 0 ∧
      g1.shm.buf_tohost.data (11 + 3 + 2) = 16 % 256 ∧
      (16 < 256 → g1.shm.buf_tohost.data (11 + 3 + 2) = 16)) ∧
    (∃ g2, SDHR_write_vector 16 [200, 201, 202] (sampleState true 255) = some g2 ∧
      BulkLayout 16 g2.shm.buf_tohost [200, 201, 202] ∧
      (16 < 256 → g2.shm.buf_tohost.data (11 + [200, 201, 202].length + 2) = 16))) :=
  ⟨rfl, by decide, by decide,
    SDHR_write_layout 16 (fun i => 200 + i) 3 [200, 201, 202] (sampleState true 255) rfl
      (by decide) (by decide)⟩

/-- C3: for every payload of `n` bytes whose framed length `n + 11 + 1 + 3`
exceeds 65535, both overloads of `SDHR_write` return without any store: the
whole state, and so the payload length, every data byte of the to-host buffer
and the ready flag, is exactly as before the call. -/
theorem SDHR_write_overflow_rejected (READY : Nat) (buf : Nat → Nat) (n : Nat)
    (v_data : List Nat) (g : State)
    (hn : 65535 < n + 11 + 1 + 3) (hv : 65535 < v_data.length + 11 + 1 + 3) :
    SDHR_write READY buf n g = some g ∧ SDHR_write_vector READY v_data g = some g := by
  have key : ∀ m, 65535 < m + 11 + 1 + 3 → SDHR_write_sz m < m := by
    intro m hm
    simp only [SDHR_write_sz, gamelinkCmd_length, UINT16_MOD]
    omega
  constructor
  · simp [SDHR_write, key n hn]
  · simp [SDHR_write_vector, key _ hv]

/-- C3, witness: payloads of 65521 bytes, the shortest that overflow. -/
theorem SDHR_write_overflow_rejected_witness :
    65535 < 65521 + 11 + 1 + 3 ∧ 65535 < (List.replicate 65521 7).length + 11 + 1 + 3 ∧
    SDHR_write 16 (fun _ => 7) 65521 (sampleState true 255) = some (sampleState true 255) ∧
    SDHR_write_vector 16 (List.replicate 65521 7) (sampleState true 255) =
      some (sampleState true 255) :=
  have h2 : 65535 < (List.replicate 65521 7).length + 11 + 1 + 3 := by
    rw [List.length_replicate]; decide
  ⟨by decide, h2,
    SDHR_write_overflow_rejected 16 (fun _ => 7) 65521 (List.replicate 65521 7)
      (sampleState true 255) (by decide) h2⟩

/-- C4 (ready one-shot): after an accepted `SDHR_write` (either overload) on an
active link `SDHR_IsReadyToProcess` is true; the first following
`SDHR_process` writes the command `":sdhr_process"` to the to-host buffer and
makes `SDHR_IsReadyToProcess` false.  From then on, and in every state in
which the flag is clear, whatever the to-host buffer holds, `SDHR_process`
returns the state unchanged, any number of times: payload length, data and
ready flag stay as they are.  A command sent in between leaves the flag as it
was, so `SDHR_process` after it still changes nothing; only an accepted
`SDHR_write` sets the flag. -/
theorem SDHR_ready_one_shot (READY : Nat) (buf : Nat → Nat) (n : Nat) (v_data : List Nat)
    (g : State) (hact : g.g_p_shared_memory = true)
    (hacc : ¬ (SDHR_write_sz n < n))
    (haccv : ¬ (SDHR_write_sz v_data.length < v_data.length)) :
    (∃ g1 g2, SDHR_write READY buf n g = some g1 ∧ SDHR_IsReadyToProcess g1 = true ∧
      SDHR_process g1 = some g2 ∧ HoldsCommand g2.shm.buf_tohost cmd_sdhr_process ∧
      SDHR_IsReadyToProcess g2 = false ∧ ∀ k, SDHR_process_n k g2 = some g2) ∧
    (∃ g1 g2, SDHR_write_vector READY v_data g = some g1 ∧ SDHR_IsReadyToProcess g1 = true ∧
      SDHR_process g1 = some g2 ∧ HoldsCommand g2.shm.buf_tohost cmd_sdhr_process ∧
      SDHR_IsReadyToProcess g2 = false ∧ ∀ k, SDHR_process_n k g2 = some g2) ∧
    (∀ h : State, SDHR_IsReadyToProcess h = false →
      SDHR_process h = some h ∧ ∀ k, SDHR_process_n k h = some h) ∧
    (∀ (S : List Nat) (h h1 : State), SendCommand S h = some h1 →
      SDHR_IsReadyToProcess h1 = SDHR_IsReadyToProcess h) ∧
    (∀ (S : List Nat) (h h1 : State), SDHR_IsReadyToProcess h = false →
      SendCommand S h = some h1 → SDHR_process h1 = some h1) := by
  refine ⟨?_, ?_, ?_, ?_, ?_⟩
  · obtain ⟨-, hr, hp⟩ :=
      execStores_SDHR_write_rest READY ((List.range n).map buf) (n + 15) g
    obtain ⟨g2, h1, h2, h3, h4⟩ := SDHR_process_armed _ (hp.trans hact) hr
    exact ⟨_, g2, SDHR_write_accept READY buf n g hact hacc, hr, h1, h2, h3, h4⟩
  · obtain ⟨-, hr, hp⟩ := execStores_SDHR_write_rest READY v_data (v_data.length + 15) g
    obtain ⟨g2, h1, h2, h3, h4⟩ := SDHR_process_armed _ (hp.trans hact) hr
    exact ⟨_, g2, SDHR_write_vector_accept READY v_data g hact haccv, hr, h1, h2, h3, h4⟩
  · intro h hf
    exact ⟨SDHR_process_idle h hf, fun k => SDHR_process_n_idle k h hf⟩
  · intro S h h1 e
    exact SendCommand_flag S h h1 e
  · intro S h h1 hf e
    exact SDHR_process_idle h1 ((SendCommand_flag S h h1 e).trans hf)

/-- C4, witness: a three-byte payload on a connected sample state; and, with
the flag clear, `SDHR_process` on the sample state (data bytes all 255, no
command in the buffer) and after a `":pause"` sent to it. -/
theorem SDHR_ready_one_shot_witness :
    (sampleState true 255).g_p_shared_memory = true ∧ ¬ (SDHR_write_sz 3 < 3) ∧
    ¬ (SDHR_write_sz [1, 2, 3].length < [1, 2, 3].length) ∧
    (∃ g1 g2, SDHR_write 16 (fun i => i) 3 (sampleState true 255) = some g1 ∧
      SDHR_IsReadyToProcess g1 = true ∧
      SDHR_process g1 = some g2 ∧ HoldsCommand g2.shm.buf_tohost cmd_sdhr_process ∧
      SDHR_IsReadyToProcess g2 = false ∧ ∀ k, SDHR_process_n k g2 = some g2) ∧
    (∃ g1 g2, SDHR_write_vector 16 [1, 2, 3] (sampleState true 255) = some g1 ∧
      SDHR_IsReadyToProcess g1 = true ∧
      SDHR_process g1 = some g2 ∧ HoldsCommand g2.shm.buf_tohost cmd_sdhr_process ∧
      SDHR_IsReadyToProcess g2 = false ∧ ∀ k, SDHR_process_n k g2 = some g2) ∧
    SDHR_process (sampleState true 255) = some (sampleState true 255) ∧
    SDHR_process (execStores (SendCommand_stores cmd_pause) (sampleState true 255)) =
      some (execStores (SendCommand_stores cmd_pause) (sampleState true 255)) :=
  ⟨rfl, by decide, by decide,
    (SDHR_ready_one_shot 16 (fun i => i) 3 [1, 2, 3] (sampleState true 255) rfl
      (by decide) (by decide)).1,
    (SDHR_ready_one_shot 16 (fun i => i) 3 [1, 2, 3] (sampleState true 255) rfl
      (by decide) (by decide)).2.1,
    ((SDHR_ready_one_shot 16 (fun i => i) 3 [1, 2, 3] (sampleState true 255) rfl
      (by decide) (by decide)).2.2.1 (sampleState true 255) rfl).1,
    (SDHR_ready_one_shot 16 (fun i => i) 3 [1, 2, 3] (sampleState true 255) rfl
      (by decide) (by decide)).2.2.2.2 cmd_pause (sampleState true 255) _ rfl
      (SendCommand_active cmd_pause (sampleState true 255) rfl)⟩

/-! ## Input channel -/

/-- C6: on the reading path of `GetFrameBufferInfo` (the wait outcome is
neither abandoned nor failed, link active) the call returns; when the image
format tag is 0 the reported buffer length is 0 whatever width and height
are; when the tag is non-zero the buffer length is `width * height * 4`
exactly for every width ≤ 1280 and height ≤ 1024, in particular 5242880 for
1280 x 1024, which is the capacity `MAX_PAYLOAD` of the pixel buffer. -/
theorem GetFrameBufferInfo_bufferLength (dwWaitResult : Nat) (g : State)
    (hact : g.g_p_shared_memory = true)
    (h1 : dwWaitResult ≠ WAIT_ABANDONED) (h2 : dwWaitResult ≠ WAIT_FAILED) :
    ∃ fbI g1, GetFrameBufferInfo dwWaitResult g = some (fbI, g1) ∧
      (g.shm.frame.image_fmt = 0 → fbI.bufferLength = 0) ∧
      (g.shm.frame.image_fmt ≠ 0 → g.shm.frame.width ≤ 1280 → g.shm.frame.height ≤ 1024 →
        fbI.bufferLength = g.shm.frame.width * g.shm.frame.height * 4) ∧
      (g.shm.frame.image_fmt ≠ 0 → g.shm.frame.width = 1280 → g.shm.frame.height = 1024 →
        fbI.bufferLength = 5242880 ∧
        fbI.bufferLength = sSharedMMapFrame_R1.MAX_PAYLOAD) := by
  obtain ⟨fbI, g1, e, -, -, -, hb⟩ := GetFrameBufferInfo_read dwWaitResult g hact h1 h2
  have hexact : g.shm.frame.image_fmt ≠ 0 → g.shm.frame.width ≤ 1280 →
      g.shm.frame.height ≤ 1024 →
      fbI.bufferLength = g.shm.frame.width * g.shm.frame.height * 4 := by
    intro hf hw hh
    rw [hb, if_neg hf]
    apply Nat.mod_eq_of_lt
    have hmul : g.shm.frame.width * g.shm.frame.height ≤ 1280 * 1024 := Nat.mul_le_mul hw hh
    simp only [UINT_MOD]
    omega
  refine ⟨fbI, g1, e, ?_, hexact, ?_⟩
  · intro hf
    rw [hb, if_pos hf]
  · intro hf hw hh
    have h := hexact hf (Nat.le_of_eq hw) (Nat.le_of_eq hh)
    rw [hw, hh] at h
    exact ⟨h, h⟩

/-- C6, witness: a 1280 x 1024 frame of format 1 read after an acquired wait. -/
theorem GetFrameBufferInfo_bufferLength_witness :
    (sampleFrameState 1280 1024 1).g_p_shared_memory = true ∧
    WAIT_OBJECT_0 ≠ WAIT_ABANDONED ∧ WAIT_OBJECT_0 ≠ WAIT_FAILED ∧
    ∃ fbI g1, GetFrameBufferInfo WAIT_OBJECT_0 (sampleFrameState 1280 1024 1) = some (fbI, g1) ∧
      ((sampleFrameState 1280 1024 1).shm.frame.image_fmt = 0 → fbI.bufferLength = 0) ∧
      ((sampleFrameState 1280 1024 1).shm.frame.image_fmt ≠ 0 →
        (sampleFrameState 1280 1024 1).shm.frame.width ≤ 1280 →
        (sampleFrameState 1280 1024 1).shm.frame.height ≤ 1024 →
        fbI.bufferLength = (sampleFrameState 1280 1024 1).shm.frame.width *
          (sampleFrameState 1280 1024 1).shm.frame.height * 4) ∧
      ((sampleFrameState 1280 1024 1).shm.frame.image_fmt ≠ 0 →
        (sampleFrameState 1280 1024 1).shm.frame.width = 1280 →
        (sampleFrameState 1280 1024 1).shm.frame.height = 1024 →
        fbI.bufferLength = 5242880 ∧
        fbI.bufferLength = sSharedMMapFrame_R1.MAX_PAYLOAD) :=
  ⟨rfl, by decide, by decide,
    GetFrameBufferInfo_bufferLength WAIT_OBJECT_0 (sampleFrameState 1280 1024 1) rfl
      (by decide) (by decide)⟩

/-! ## Connection -/

/-- C7: starting disconnected, every `Init` that returns 1 (so it opened a new
mapping) leaves the peek region with address count 2, `addr[0]` the
program-counter-high sentinel `UINT_MAX - 1` and `addr[1]` the
program-counter-low sentinel `UINT_MAX - 2`, whatever the peek region held
before; and `Init` does return 1 whenever the mapping object, the view and
the mutex are all available. -/
theorem Init_seeds_peek (os : Win32) (g : State) (hnull : g.g_p_shared_memory = false) :
    (∀ g1, Init os g = some (1, g1) →
      g1.shm.peek.addr_count = 2 ∧ g1.shm.peek.addr 0 = UINT_MAX - 1 ∧
      g1.shm.peek.addr 1 = UINT_MAX - 2 ∧
      g1.shm.peek.addr 0 = 4294967294 ∧ g1.shm.peek.addr 1 = 4294967293) ∧
    (os.OpenFileMappingA ≠ 0 → os.MapViewOfFile = true → os.OpenMutexA ≠ 0 →
      ∃ g1, Init os g = some (1, g1)) := by
  rw [Init_disconnected os g hnull]
  constructor
  · intro g1 h
    by_cases hm : os.OpenFileMappingA = 0
    · simp [hm] at h
    · by_cases hv : os.MapViewOfFile = true
      · by_cases hx : os.OpenMutexA = 0
        · simp [hm, hv, hx] at h
        · rw [if_pos hm, if_pos hv, if_neg hx] at h
          have e := (Prod.mk.inj (Option.some.inj h)).2
          subst e
          rw [execStores_peek]
          exact ⟨rfl, rfl, rfl, rfl, rfl⟩
      · simp [hm, hv] at h
  · intro hm hv hx
    rw [if_pos hm, if_pos hv, if_neg hx]
    exact ⟨_, rfl⟩

/-- C7, witness: the disconnected sample state with mapping, view and mutex
available. -/
theorem Init_seeds_peek_witness :
    (sampleState false 255).g_p_shared_memory = false ∧
    (∀ g1, Init { OpenFileMappingA := 5, MapViewOfFile := true, OpenMutexA := 7 }
        (sampleState false 255) = some (1, g1) →
      g1.shm.peek.addr_count = 2 ∧ g1.shm.peek.addr 0 = UINT_MAX - 1 ∧
      g1.shm.peek.addr 1 = UINT_MAX - 2 ∧
      g1.shm.peek.addr 0 = 4294967294 ∧ g1.shm.peek.addr 1 = 4294967293) ∧
    ((5 : Nat) ≠ 0 → true = true → (7 : Nat) ≠ 0 →
      ∃ g1, Init { OpenFileMappingA := 5, MapViewOfFile := true, OpenMutexA := 7 }
        (sampleState false 255) = some (1, g1)) :=
  ⟨rfl, Init_seeds_peek { OpenFileMappingA := 5, MapViewOfFile := true, OpenMutexA := 7 }
    (sampleState false 255) rfl⟩

/-! ## Lock-guarded accessors -/

/-- C8: for every wait outcome other than acquired (abandoned, timed out,
failed or any other value) and every argument, `SetSoundVolume` and
`SendKeystroke` return and leave the whole shared record unchanged, so the
AudioRegion and the secondary input region (ready marker and keyboard bitmap)
are as before and no mutation is applied in part; `GetSoundVolumeMain` and
`GetSoundVolumeMockingboard` return 0. -/
theorem not_acquired_skips (dwWaitResult : Nat) (main mockingboard scancode : Nat)
    (isPressed : Bool) (g : State) (h : dwWaitResult ≠ WAIT_OBJECT_0) :
    (∃ g1, SetSoundVolume main mockingboard dwWaitResult g = some g1 ∧ g1.shm = g.shm) ∧
    (∃ g1, SendKeystroke scancode isPressed dwWaitResult g = some g1 ∧ g1.shm = g.shm) ∧
    (∃ g1, GetSoundVolumeMain dwWaitResult g = some (0, g1) ∧ g1.shm = g.shm) ∧
    (∃ g1, GetSoundVolumeMockingboard dwWaitResult g = some (0, g1) ∧ g1.shm = g.shm) := by
  by_cases ha : dwWaitResult = WAIT_ABANDONED
  · subst ha
    refine ⟨⟨{ g with releaseCount := g.releaseCount + 1 }, ?_, rfl⟩,
      ⟨{ g with releaseCount := g.releaseCount + 1 }, ?_, rfl⟩,
      ⟨{ g with releaseCount := g.releaseCount + 1 }, ?_, rfl⟩,
      ⟨{ g with releaseCount := g.releaseCount + 1 }, ?_, rfl⟩⟩
    · simp [SetSoundVolume, h]
    · simp [SendKeystroke, h]
    · simp [GetSoundVolumeMain, h]
    · simp [GetSoundVolumeMockingboard, h]
  · refine ⟨⟨g, ?_, rfl⟩, ⟨g, ?_, rfl⟩, ⟨g, ?_, rfl⟩, ⟨g, ?_, rfl⟩⟩
    · simp [SetSoundVolume, h, ha]
    · simp [SendKeystroke, h, ha]
    · simp [GetSoundVolumeMain, h, ha]
    · simp [GetSoundVolumeMockingboard, h, ha]

/-- C8, witness: a timed-out wait on a connected sample state. -/
theorem not_acquired_skips_witness :
    WAIT_TIMEOUT ≠ WAIT_OBJECT_0 ∧
    ((∃ g1, SetSoundVolume 80 120 WAIT_TIMEOUT (sampleState true 255) = some g1 ∧
        g1.shm = (sampleState true 255).shm) ∧
    (∃ g1, SendKeystroke 37 true WAIT_TIMEOUT (sampleState true 255) = some g1 ∧
        g1.shm = (sampleState true 255).shm) ∧
    (∃ g1, GetSoundVolumeMain WAIT_TIMEOUT (sampleState true 255) = some (0, g1) ∧
        g1.shm = (sampleState true 255).shm) ∧
    (∃ g1, GetSoundVolumeMockingboard WAIT_TIMEOUT (sampleState true 255) = some (0, g1) ∧
        g1.shm = (sampleState true 255).shm)) :=
  ⟨by decide, not_acquired_skips WAIT_TIMEOUT 80 120 37 true (sampleState true 255) (by decide)⟩

/-! ## Order of the stores -/

/-- C9, the code at `SendCommand(":pause")`: the first store is the payload
length 7; the seven data bytes (six characters and the terminator) are stored
after it, and the call on an active link is the execution of these stores.
For every command the payload length is the first store and every later store
is a data store. -/
theorem SendCommand_pause_stores :
    SendCommand_stores cmd_pause =
      [Store.payload 7, Store.data 0 58, Store.data 1 112, Store.data 2 97,
       Store.data 3 117, Store.data 4 115, Store.data 5 101, Store.data 6 0] ∧
    SendCommand cmd_pause (sampleState true 255) =
      some (execStores
        [Store.payload 7, Store.data 0 58, Store.data 1 112, Store.data 2 97,
         Store.data 3 117, Store.data 4 115, Store.data 5 101, Store.data 6 0]
        (sampleState true 255)) ∧
    (∀ S : List Nat, ∃ sz rest, SendCommand_stores S = Store.payload sz :: rest ∧
      ∀ s ∈ rest, ∃ i v, s = Store.data i v) := by
  refine ⟨by decide, rfl, ?_⟩
  intro S
  refine ⟨_, _, rfl, ?_⟩
  intro s hs
  unfold snprintf_stores at hs
  split at hs
  · simp at hs
  · simp only [List.mem_append, List.mem_singleton] at hs
    rcases hs with h | h
    · exact copyStores_all_data _ _ s h
    · exact ⟨_, _, h⟩

/-- C10: for every accepted payload on an active link, `SDHR_write` (either
overload) is the execution of a store sequence `pre ++ [length, ready]`:
`pre` consists of data stores only and contains the stores of the 11 tag
bytes, of every payload byte and of the 3 trailer bytes; the store of the
payload length `n + 15` comes after all of them, and the ready flag is set
after the length is stored. -/
theorem SDHR_write_publishes_last (READY : Nat) (buf : Nat → Nat) (n : Nat)
    (v_data : List Nat) (g : State) (hact : g.g_p_shared_memory = true)
    (hacc : ¬ (SDHR_write_sz n < n))
    (haccv : ¬ (SDHR_write_sz v_data.length < v_data.length)) :
    (∃ pre,
      SDHR_write_stores READY ((List.range n).map buf) (SDHR_write_sz n) =
        pre ++ [Store.payload (n + 15), Store.ready true] ∧
      SDHR_write READY buf n g =
        some (execStores (pre ++ [Store.payload (n + 15), Store.ready true]) g) ∧
      (∀ s ∈ pre, ∃ i v, s = Store.data i v) ∧
      (∀ i c, gamelinkCmd[i]? = some c → Store.data i c ∈ pre) ∧
      (∀ i, i < n → Store.data (11 + i) (buf i) ∈ pre) ∧
      Store.data (11 + n) 0 ∈ pre ∧ Store.data (11 + n + 1) 0 ∈ pre ∧
      Store.data (11 + n + 2) (READY % 256) ∈ pre) ∧
    (∃ pre,
      SDHR_write_stores READY v_data (SDHR_write_sz v_data.length) =
        pre ++ [Store.payload (v_data.length + 15), Store.ready true] ∧
      SDHR_write_vector READY v_data g =
        some (execStores (pre ++ [Store.payload (v_data.length + 15), Store.ready true]) g) ∧
      (∀ s ∈ pre, ∃ i v, s = Store.data i v) ∧
      (∀ i c, gamelinkCmd[i]? = some c → Store.data i c ∈ pre) ∧
      (∀ i c, v_data[i]? = some c → Store.data (11 + i) c ∈ pre) ∧
      Store.data (11 + v_data.length) 0 ∈ pre ∧ Store.data (11 + v_data.length + 1) 0 ∈ pre ∧
      Store.data (11 + v_data.length + 2) (READY % 256) ∈ pre) := by
  constructor
  · obtain ⟨pre, e, h1, h2, h3, h4, h5, h6⟩ :=
      SDHR_write_stores_order READY ((List.range n).map buf) (n + 15)
    simp only [List.length_map, List.length_range] at h4 h5 h6
    refine ⟨pre, ?_, ?_, h1, h2, ?_, h4, h5, h6⟩
    · rw [SDHR_write_sz_of_accept n hacc, e]
    · rw [SDHR_write_accept READY buf n g hact hacc, e]
    · intro i hi
      apply h3
      rw [List.getElem?_map, List.getElem?_range hi]
      rfl
  · obtain ⟨pre, e, h1, h2, h3, h4, h5, h6⟩ :=
      SDHR_write_stores_order READY v_data (v_data.length + 15)
    refine ⟨pre, ?_, ?_, h1, h2, h3, h4, h5, h6⟩
    · rw [SDHR_write_sz_of_accept _ haccv, e]
    · rw [SDHR_write_vector_accept READY v_data g hact haccv, e]

/-- C10, witness: a three-byte payload on a connected sample state. -/
theorem SDHR_write_publishes_last_witness :
    (sampleState true 255).g_p_shared_memory = true ∧ ¬ (SDHR_write_sz 3 < 3) ∧
    ¬ (SDHR_write_sz [200, 201, 202].length < [200, 201, 202].length) ∧
    ((∃ pre,
      SDHR_write_stores 16 ((List.range 3).map (fun i => 200 + i)) (SDHR_write_sz 3) =
        pre ++ [Store.payload (3 + 15), Store.ready true] ∧
      SDHR_write 16 (fun i => 200 + i) 3 (sampleState true 255) =
        some (execStores (pre ++ [Store.payload (3 + 15), Store.ready true])
          (sampleState true 255)) ∧
      (∀ s ∈ pre, ∃ i v, s = Store.data i v) ∧
      (∀ i c, gamelinkCmd[i]? = some c → Store.data i c ∈ pre) ∧
      (∀ i, i < 3 → Store.data (11 + i) ((fun i => 200 + i) i) ∈ pre) ∧
      Store.data (11 + 3) 0 ∈ pre ∧ Store.data (11 + 3 + 1) 0 ∈ pre ∧
      Store.data (11 + 3 + 2) (16 % 256) ∈ pre) ∧
    (∃ pre,
      SDHR_write_stores 16 [200, 201, 202] (SDHR_write_sz [200, 201, 202].length) =
        pre ++ [Store.payload ([200, 201, 202].length + 15), Store.ready true] ∧
      SDHR_write_vector 16 [200, 201, 202] (sampleState true 255) =
        some (execStores
          (pre ++ [Store.payload ([200, 201, 202].length + 15), Store.ready true])
          (sampleState true 255)) ∧
      (∀ s ∈ pre, ∃ i v, s = Store.data i v) ∧
      (∀ i c, gamelinkCmd[i]? = some c → Store.data i c ∈ pre) ∧
      (∀ i c, [200, 201, 202][i]? = some c → Store.data (11 + i) c ∈ pre) ∧
      Store.data (11 + [200, 201, 202].length) 0 ∈ pre ∧
      Store.data (11 + [200, 201, 202].length + 1) 0 ∈ pre ∧
      Store.data (11 + [200, 201, 202].length + 2) (16 % 256) ∈ pre)) :=
  ⟨rfl, by decide, by decide,
    SDHR_write_publishes_last 16 (fun i => 200 + i) 3 [200, 201, 202] (sampleState true 255)
      rfl (by decide) (by decide)⟩

/-! ## Frame reader and the wait outcome -/

/-- The stores of the to-host channel leave the mapping pointer alone. -/
theorem execStores_pointer (ss : List Store) (g : State) :
    (execStores ss g).g_p_shared_memory = g.g_p_shared_memory := by
  induction ss generalizing g with
  | nil => rfl
  | cons s ss ih =>
      rw [execStores_cons, ih]
      cases s <;> rfl

/-- On the reading path the info returned by `GetFrameBufferInfo` is the one
derived from the frame region. -/
theorem GetFrameBufferInfo_read_info (dwWaitResult : Nat) (g : State)
    (hact : g.g_p_shared_memory = true)
    (h1 : dwWaitResult ≠ WAIT_ABANDONED) (h2 : dwWaitResult ≠ WAIT_FAILED) :
    ∃ fbI g1, GetFrameBufferInfo dwWaitResult g = some (fbI, g1) ∧
      InfoOfFrame fbI g.shm.frame := by
  unfold GetFrameBufferInfo
  rw [if_neg h1, if_neg h2, if_pos hact]
  refine ⟨_, _, rfl, ?_⟩
  unfold InfoOfFrame
  by_cases hf : g.shm.frame.image_fmt = 0
  · simp [hf]
  · simp [hf]

/-- After an abandoned or failed wait `GetFrameBufferInfo` returns the
value-initialised info. -/
theorem GetFrameBufferInfo_skip (dwWaitResult : Nat) (g : State)
    (h : dwWaitResult = WAIT_ABANDONED ∨ dwWaitResult = WAIT_FAILED) :
    ∃ g1, GetFrameBufferInfo dwWaitResult g = some (sFramebufferInfo.zero, g1) ∧
      g1.shm = g.shm := by
  rcases h with h | h
  · subst h
    exact ⟨_, rfl, rfl⟩
  · subst h
    exact ⟨_, rfl, rfl⟩

/-- C11 (as amended): on an active link, for the wait outcomes acquired and
timed out, and every other value that is neither abandoned nor failed,
`GetFrameBufferInfo` returns the info derived from the current frame region
(width, height, image format, pixel aspect ratio, buffer length); for the
outcomes abandoned and failed it returns the value-initialised info, all
fields zero, whatever the frame region holds. -/
theorem GetFrameBufferInfo_outcomes (dwWaitResult : Nat) (g : State)
    (hact : g.g_p_shared_memory = true) :
    (dwWaitResult ≠ WAIT_ABANDONED → dwWaitResult ≠ WAIT_FAILED →
      ∃ fbI g1, GetFrameBufferInfo dwWaitResult g = some (fbI, g1) ∧
        InfoOfFrame fbI g.shm.frame) ∧
    (dwWaitResult = WAIT_ABANDONED ∨ dwWaitResult = WAIT_FAILED →
      ∃ g1, GetFrameBufferInfo dwWaitResult g = some (sFramebufferInfo.zero, g1)) := by
  constructor
  · intro h1 h2
    exact GetFrameBufferInfo_read_info dwWaitResult g hact h1 h2
  · intro h
    obtain ⟨g1, e, -⟩ := GetFrameBufferInfo_skip dwWaitResult g h
    exact ⟨g1, e⟩

/-- C11, witness: a timed-out wait on a connected state with a 1280 x 1024
frame of format 1. -/
theorem GetFrameBufferInfo_outcomes_witness :
    (sampleFrameState 1280 1024 1).g_p_shared_memory = true ∧
    (WAIT_TIMEOUT ≠ WAIT_ABANDONED → WAIT_TIMEOUT ≠ WAIT_FAILED →
      ∃ fbI g1, GetFrameBufferInfo WAIT_TIMEOUT (sampleFrameState 1280 1024 1) =
          some (fbI, g1) ∧
        InfoOfFrame fbI (sampleFrameState 1280 1024 1).shm.frame) ∧
    (WAIT_TIMEOUT = WAIT_ABANDONED ∨ WAIT_TIMEOUT = WAIT_FAILED →
      ∃ g1, GetFrameBufferInfo WAIT_TIMEOUT (sampleFrameState 1280 1024 1) =
        some (sFramebufferInfo.zero, g1)) :=
  ⟨rfl, GetFrameBufferInfo_outcomes WAIT_TIMEOUT (sampleFrameState 1280 1024 1) rfl⟩

/-- C11, counterexample: with a 1280 x 1024 frame of format 1 in the frame
region, neither an abandoned nor a failed wait returns the info derived from
it (the reported width is 0, not 1280). -/
theorem GetFrameBufferInfo_outcomes_counterexample :
    (¬ ∃ fbI g1, GetFrameBufferInfo WAIT_ABANDONED (sampleFrameState 1280 1024 1) =
          some (fbI, g1) ∧
        InfoOfFrame fbI (sampleFrameState 1280 1024 1).shm.frame) ∧
    (¬ ∃ fbI g1, GetFrameBufferInfo WAIT_FAILED (sampleFrameState 1280 1024 1) =
          some (fbI, g1) ∧
        InfoOfFrame fbI (sampleFrameState 1280 1024 1).shm.frame) := by
  constructor
  · rintro ⟨fbI, g1, e, hw, -⟩
    obtain ⟨g2, e2, -⟩ :=
      GetFrameBufferInfo_skip WAIT_ABANDONED (sampleFrameState 1280 1024 1) (Or.inl rfl)
    rw [e2] at e
    have e3 := (Prod.mk.inj (Option.some.inj e)).1
    subst e3
    exact absurd hw (by decide)
  · rintro ⟨fbI, g1, e, hw, -⟩
    obtain ⟨g2, e2, -⟩ :=
      GetFrameBufferInfo_skip WAIT_FAILED (sampleFrameState 1280 1024 1) (Or.inr rfl)
    rw [e2] at e
    have e3 := (Prod.mk.inj (Option.some.inj e)).1
    subst e3
    exact absurd hw (by decide)

/-! ## Connection: repeated and failed connects -/

/-- C12: `Init` while already connected (mapping pointer non-null) returns 1
and leaves the whole state unchanged: connection variables, shared record
(peek region, to-host buffer) and ready flag. -/
theorem Init_connected_noop (os : Win32) (g : State) (h : g.g_p_shared_memory = true) :
    Init os g = some (1, g) := by
  simp [Init, h]

/-- C12, witness: the connected sample state, with every system object
available. -/
theorem Init_connected_noop_witness :
    (sampleState true 255).g_p_shared_memory = true ∧
    Init { OpenFileMappingA := 5, MapViewOfFile := true, OpenMutexA := 7 }
      (sampleState true 255) = some (1, sampleState true 255) :=
  ⟨rfl, Init_connected_noop { OpenFileMappingA := 5, MapViewOfFile := true, OpenMutexA := 7 }
    (sampleState true 255) rfl⟩

/-- C13: starting disconnected with the shared-memory object opened and
mapped: when the companion lock cannot be opened, `Init` returns 0, `IsActive`
is false afterwards and the to-host buffer (payload length and data) is as
before the call; when the lock is opened, `Init` returns 1, `IsActive` is true
and the to-host buffer holds the command `":videonative"` with payload
length 13. -/
theorem Init_lock (os : Win32) (g : State) (hnull : g.g_p_shared_memory = false)
    (hm : os.OpenFileMappingA ≠ 0) (hv : os.MapViewOfFile = true) :
    (os.OpenMutexA = 0 →
      ∃ g1, Init os g = some (0, g1) ∧ IsActive g1 = false ∧
        g1.shm.buf_tohost.payload = g.shm.buf_tohost.payload ∧
        g1.shm.buf_tohost.data = g.shm.buf_tohost.data) ∧
    (os.OpenMutexA ≠ 0 →
      ∃ g1, Init os g = some (1, g1) ∧ IsActive g1 = true ∧
        HoldsCommand g1.shm.buf_tohost cmd_videonative ∧
        g1.shm.buf_tohost.payload = 13) := by
  rw [Init_disconnected os g hnull, if_pos hm, if_pos hv]
  constructor
  · intro hx
    rw [if_pos hx]
    exact ⟨_, rfl, rfl, rfl, rfl⟩
  · intro hx
    rw [if_neg hx]
    refine ⟨_, rfl, ?_, ?_, ?_⟩
    · simp only [IsActive]
      rw [execStores_pointer]
    · exact holdsCommand_SendCommand cmd_videonative _ (by decide) (by decide)
    · exact (holdsCommand_SendCommand cmd_videonative _ (by decide) (by decide)).1

/-- C13, witness: the disconnected sample state with mapping and view
available, once without and once with the mutex. -/
theorem Init_lock_witness :
    (sampleState false 255).g_p_shared_memory = false ∧ (5 : Nat) ≠ 0 ∧ true = true ∧
    (∃ g1, Init { OpenFileMappingA := 5, MapViewOfFile := true, OpenMutexA := 0 }
          (sampleState false 255) = some (0, g1) ∧ IsActive g1 = false ∧
        g1.shm.buf_tohost.payload = (sampleState false 255).shm.buf_tohost.payload ∧
        g1.shm.buf_tohost.data = (sampleState false 255).shm.buf_tohost.data) ∧
    (∃ g1, Init { OpenFileMappingA := 5, MapViewOfFile := true, OpenMutexA := 7 }
          (sampleState false 255) = some (1, g1) ∧ IsActive g1 = true ∧
        HoldsCommand g1.shm.buf_tohost cmd_videonative ∧
        g1.shm.buf_tohost.payload = 13) :=
  ⟨rfl, by decide, rfl,
    (Init_lock { OpenFileMappingA := 5, MapViewOfFile := true, OpenMutexA := 0 }
      (sampleState false 255) rfl (by decide) rfl).1 rfl,
    (Init_lock { OpenFileMappingA := 5, MapViewOfFile := true, OpenMutexA := 7 }
      (sampleState false 255) rfl (by decide) rfl).2 (by decide)⟩

/-! ## Audio, peek and disconnected accessors -/

/-- C14: for every pair of arguments, with the lock acquired on an active
link `SetSoundVolume` returns, the left/main volume of the AudioRegion is
`min main 100`, the right/secondary volume is `min mockingboard 100`, both are
at most 100, and no other field of the shared record changes. -/
theorem SetSoundVolume_clamps (main mockingboard : Nat) (g : State)
    (hact : g.g_p_shared_memory = true) :
    ∃ g1, SetSoundVolume main mockingboard WAIT_OBJECT_0 g = some g1 ∧
      g1.shm.audio.master_vol_l = min main 100 ∧
      g1.shm.audio.master_vol_r = min mockingboard 100 ∧
      g1.shm.audio.master_vol_l ≤ 100 ∧ g1.shm.audio.master_vol_r ≤ 100 ∧
      g1.shm = { g.shm with audio :=
        { master_vol_l := min main 100, master_vol_r := min mockingboard 100 } } := by
  have hmin : ∀ x : Nat, (if x > 100 then 100 else x) = min x 100 := by
    intro x
    by_cases hx : x > 100
    · rw [if_pos hx]; omega
    · rw [if_neg hx]; omega
  have e : SetSoundVolume main mockingboard WAIT_OBJECT_0 g =
      some { g with
        shm := { g.shm with audio :=
          { master_vol_l := min main 100, master_vol_r := min mockingboard 100 } },
        releaseCount := g.releaseCount + 1 } := by
    unfold SetSoundVolume
    simp only [Nat.not_lt_zero, if_false, hmin, if_true]
    rw [if_pos hact]
  exact ⟨_, e, rfl, rfl, Nat.min_le_right _ _, Nat.min_le_right _ _, rfl⟩

/-- C14, witness: volumes 80 and 120 on a connected sample state. -/
theorem SetSoundVolume_clamps_witness :
    (sampleState true 255).g_p_shared_memory = true ∧
    ∃ g1, SetSoundVolume 80 120 WAIT_OBJECT_0 (sampleState true 255) = some g1 ∧
      g1.shm.audio.master_vol_l = min 80 100 ∧
      g1.shm.audio.master_vol_r = min 120 100 ∧
      g1.shm.audio.master_vol_l ≤ 100 ∧ g1.shm.audio.master_vol_r ≤ 100 ∧
      g1.shm = { (sampleState true 255).shm with audio :=
        { master_vol_l := min 80 100, master_vol_r := min 120 100 } } :=
  ⟨rfl, SetSoundVolume_clamps 80 120 (sampleState true 255) rfl⟩

/-- C15 (as amended): on an active link, for every index and every peek
region content, `GetPeekAt index` is the result byte `data[index]` when the
index is below the current address count and below the array capacity
`PEEK_LIMIT` (16384), and 0 when the index is not below the address count. -/
theorem GetPeekAt_bounds (position : Nat) (g : State) (hact : g.g_p_shared_memory = true) :
    (position < g.shm.peek.addr_count → position < sSharedMMapPeek_R2.PEEK_LIMIT →
      GetPeekAt position g = g.shm.peek.data position) ∧
    (g.shm.peek.addr_count ≤ position → GetPeekAt position g = 0) := by
  constructor
  · intro h hl
    simp [GetPeekAt, peek_data_read, hact, h, hl]
  · intro h
    have h1 : ¬ (position < g.shm.peek.addr_count) := by omega
    simp [GetPeekAt, hact, h1]

/-- C15, witness: a connected state with address count 2 and result bytes
100, 101: index 1 reads 101, index 2 reads 0. -/
theorem GetPeekAt_bounds_witness :
    (samplePeekState 2 0).g_p_shared_memory = true ∧
    (samplePeekState 2 0).shm.peek.addr_count = 2 ∧
    (samplePeekState 2 0).shm.peek.data 1 = 101 ∧
    GetPeekAt 1 (samplePeekState 2 0) = 101 ∧
    GetPeekAt 2 (samplePeekState 2 0) = 0 :=
  ⟨rfl, rfl, rfl,
    (GetPeekAt_bounds 1 (samplePeekState 2 0) rfl).1 (by decide) (by decide),
    (GetPeekAt_bounds 2 (samplePeekState 2 0) rfl).2 (by decide)⟩

/-- C15, counterexample: with address count 16385, index 16384 is below the
count but outside the result array; the byte returned is the low byte of the
payload length of the to-host buffer (2 for length 258, 3 for length 259, the
peek region being the same), not a result byte of the peek region. -/
theorem GetPeekAt_bounds_counterexample :
    (samplePeekState 16385 258).g_p_shared_memory = true ∧
    16384 < (samplePeekState 16385 258).shm.peek.addr_count ∧
    (samplePeekState 16385 258).shm.peek = (samplePeekState 16385 259).shm.peek ∧
    GetPeekAt 16384 (samplePeekState 16385 258) = 2 ∧
    GetPeekAt 16384 (samplePeekState 16385 259) = 3 ∧
    ¬ (GetPeekAt 16384 (samplePeekState 16385 258) =
      (samplePeekState 16385 258).shm.peek.data 16384) := by
  refine ⟨rfl, by decide, rfl, by decide, by decide, by decide⟩

/-- C16: when the link is not active (mapping pointer null) `GetMemorySize`
is 0, `GetPeekAt i` is 0 for every `i`, `GetEmulatedProgramName` is the empty
string and `IsActive` is false, whatever the shared record holds: the results
are the same for every content of the record, and the accessors return a
value only, no new state. -/
theorem inactive_accessors (g : State) (hnull : g.g_p_shared_memory = false) :
    GetMemorySize g = 0 ∧ (∀ i, GetPeekAt i g = 0) ∧ GetEmulatedProgramName g = [] ∧
    IsActive g = false ∧
    (∀ m : sSharedMemoryMap_R4,
      GetMemorySize { g with shm := m } = 0 ∧ (∀ i, GetPeekAt i { g with shm := m } = 0) ∧
      GetEmulatedProgramName { g with shm := m } = [] ∧
      IsActive { g with shm := m } = false) := by
  refine ⟨?_, ?_, ?_, ?_, ?_⟩
  · simp [GetMemorySize, hnull]
  · intro i
    simp [GetPeekAt, hnull]
  · simp [GetEmulatedProgramName, hnull]
  · simp [IsActive, hnull]
  · intro m
    refine ⟨?_, ?_, ?_, ?_⟩
    · simp [GetMemorySize, hnull]
    · intro i
      simp [GetPeekAt, hnull]
    · simp [GetEmulatedProgramName, hnull]
    · simp [IsActive, hnull]

/-- C16, witness: the disconnected sample state. -/
theorem inactive_accessors_witness :
    (sampleState false 255).g_p_shared_memory = false ∧
    GetMemorySize (sampleState false 255) = 0 ∧
    (∀ i, GetPeekAt i (sampleState false 255) = 0) ∧
    GetEmulatedProgramName (sampleState false 255) = [] ∧
    IsActive (sampleState false 255) = false ∧
    (∀ m : sSharedMemoryMap_R4,
      GetMemorySize { sampleState false 255 with shm := m } = 0 ∧
      (∀ i, GetPeekAt i { sampleState false 255 with shm := m } = 0) ∧
      GetEmulatedProgramName { sampleState false 255 with shm := m } = [] ∧
      IsActive { sampleState false 255 with shm := m } = false) :=
  ⟨rfl, inactive_accessors (sampleState false 255) rfl⟩

/-! ## Layout -/

/-- C17, the code at the declaration `UINT program_hash[4]`: the program hash
field of every shared record has 4 words of 32 bits (a `UINT` has 2^32
values), so it holds 128 bits and not the 256 bits of the comment on the
declaration; 256 bits would take 8 such words. -/
theorem program_hash_field_bits :
    (∀ m : sSharedMemoryMap_R4,
      (List.ofFn m.program_hash).length = 4 ∧ program_hash_bits m = 128 ∧
      program_hash_bits m ≠ 256) ∧
    program_hash_bits (sampleState true 255).shm = 128 ∧
    PROGRAM_HASH_WORDS = 4 ∧ UINT_MOD = 2 ^ UINT_BITS ∧ 8 * UINT_BITS = 256 := by
  refine ⟨?_, ?_, rfl, by decide, by decide⟩
  · intro m
    simp [program_hash_bits, List.length_ofFn, PROGRAM_HASH_WORDS, UINT_BITS]
  · simp [program_hash_bits, List.length_ofFn, PROGRAM_HASH_WORDS, UINT_BITS]

/-! ## Bounds of the stores -/

/-- A byte copy of `l` from offset `off` stores at indices `off` up to
`off + l.length - 1` only. -/
theorem copyStores_index (l : List Nat) (off i v : Nat)
    (h : Store.data i v ∈ copyStores off l) : off ≤ i ∧ i < off + l.length := by
  induction l generalizing off with
  | nil => simp [copyStores] at h
  | cons c cs ih =>
      simp only [copyStores, List.mem_cons, Store.data.injEq] at h
      rcases h with h | h
      · simp only [List.length_cons]
        omega
      · have h1 := ih (off + 1) h
        simp only [List.length_cons]
        omega

/-- Indices of the data stores of a bulk write: none above
`11 + payload.length + 2`, and that one is stored. -/
theorem SDHR_write_stores_index (READY : Nat) (payload : List Nat) (sz : Nat) :
    (∀ i v, Store.data i v ∈ SDHR_write_stores READY payload sz →
      i ≤ 11 + payload.length + 2) ∧
    Store.data (11 + payload.length + 2) (READY % 256) ∈ SDHR_write_stores READY payload sz ∧
    Store.payload sz ∈ SDHR_write_stores READY payload sz := by
  refine ⟨?_, ?_, ?_⟩
  · intro i v h
    simp only [SDHR_write_stores, gamelinkCmd_length, Nat.zero_add, List.mem_append,
      List.mem_cons, Store.data.injEq, List.mem_singleton, List.not_mem_nil, or_false,
      reduceCtorEq] at h
    rcases h with (h | h) | h | h | h
    · have h1 := copyStores_index gamelinkCmd 0 i v h
      rw [gamelinkCmd_length] at h1
      omega
    · have h1 := copyStores_index payload 11 i v h
      omega
    · omega
    · omega
    · omega
  · simp [SDHR_write_stores, gamelinkCmd_length]
  · simp [SDHR_write_stores]

/-- C18: for every payload of `n` bytes that `SDHR_write` accepts (either
overload, active link) the call is the execution of its store sequence; every
data index stored is at most `n + 13`, so below the published payload length
`n + 15` and below the capacity 65536; index `n + 13` is stored; the byte at
index `n + 14`, the last one the published length covers, is not stored and
keeps its old value. -/
theorem SDHR_write_store_bounds (READY : Nat) (buf : Nat → Nat) (n : Nat)
    (v_data : List Nat) (g : State) (hact : g.g_p_shared_memory = true)
    (hacc : ¬ (SDHR_write_sz n < n))
    (haccv : ¬ (SDHR_write_sz v_data.length < v_data.length)) :
    (∃ T g1, T = SDHR_write_stores READY ((List.range n).map buf) (SDHR_write_sz n) ∧
      SDHR_write READY buf n g = some g1 ∧ g1 = execStores T g ∧
      Store.payload (n + 15) ∈ T ∧
      (∀ i v, Store.data i v ∈ T →
        i ≤ n + 13 ∧ i < n + 15 ∧ i < sSharedMMapBuffer_R1.BUFFER_SIZE) ∧
      (∃ v, Store.data (n + 13) v ∈ T) ∧
      (∀ v, Store.data (n + 14) v ∉ T) ∧
      g1.shm.buf_tohost.data (n + 14) = g.shm.buf_tohost.data (n + 14)) ∧
    (∃ T g2, T = SDHR_write_stores READY v_data (SDHR_write_sz v_data.length) ∧
      SDHR_write_vector READY v_data g = some g2 ∧ g2 = execStores T g ∧
      Store.payload (v_data.length + 15) ∈ T ∧
      (∀ i v, Store.data i v ∈ T →
        i ≤ v_data.length + 13 ∧ i < v_data.length + 15 ∧
        i < sSharedMMapBuffer_R1.BUFFER_SIZE) ∧
      (∃ v, Store.data (v_data.length + 13) v ∈ T) ∧
      (∀ v, Store.data (v_data.length + 14) v ∉ T) ∧
      g2.shm.buf_tohost.data (v_data.length + 14) =
        g.shm.buf_tohost.data (v_data.length + 14)) := by
  have key : ∀ (payload : List Nat), ¬ (SDHR_write_sz payload.length < payload.length) →
      Store.payload (payload.length + 15) ∈
        SDHR_write_stores READY payload (payload.length + 15) ∧
      (∀ i v, Store.data i v ∈ SDHR_write_stores READY payload (payload.length + 15) →
        i ≤ payload.length + 13 ∧ i < payload.length + 15 ∧
        i < sSharedMMapBuffer_R1.BUFFER_SIZE) ∧
      (∃ v, Store.data (payload.length + 13) v ∈
        SDHR_write_stores READY payload (payload.length + 15)) ∧
      (∀ v, Store.data (payload.length + 14) v ∉
        SDHR_write_stores READY payload (payload.length + 15)) ∧
      (execStores (SDHR_write_stores READY payload (payload.length + 15))
        g).shm.buf_tohost.data (payload.length + 14) =
        g.shm.buf_tohost.data (payload.length + 14) := by
    intro payload hp
    have hfit := (SDHR_write_sz_accept_iff payload.length).mp hp
    obtain ⟨hmax, htop, hlen⟩ := SDHR_write_stores_index READY payload (payload.length + 15)
    refine ⟨hlen, ?_, ?_, ?_, ?_⟩
    · intro i v hi
      have h1 := hmax i v hi
      simp only [sSharedMMapBuffer_R1.BUFFER_SIZE]
      omega
    · refine ⟨READY % 256, ?_⟩
      have e : payload.length + 13 = 11 + payload.length + 2 := by omega
      rw [e]
      exact htop
    · intro v hv
      have h1 := hmax _ v hv
      omega
    · rw [execStores_SDHR_write_data]
      have h1 : payload.length + 14 ≠ 11 + payload.length + 2 := by omega
      have h2 : payload.length + 14 ≠ 11 + payload.length + 1 := by omega
      have h3 : payload.length + 14 ≠ 11 + payload.length := by omega
      have h4 : ¬ (11 ≤ payload.length + 14 ∧ payload.length + 14 < 11 + payload.length) := by
        omega
      have h5 : ¬ (payload.length + 14 < 11) := by omega
      rw [if_neg h1, if_neg h2, if_neg h3, if_neg h4, if_neg h5]
  constructor
  · have hlen : ((List.range n).map buf).length = n := by simp
    have k := key ((List.range n).map buf) (by rw [hlen]; exact hacc)
    rw [hlen] at k
    obtain ⟨k1, k2, k3, k4, k5⟩ := k
    refine ⟨_, _, rfl, ?_, rfl, ?_, ?_, ?_, ?_, ?_⟩
    · rw [SDHR_write_sz_of_accept n hacc]
      exact SDHR_write_accept READY buf n g hact hacc
    · rw [SDHR_write_sz_of_accept n hacc]; exact k1
    · rw [SDHR_write_sz_of_accept n hacc]; exact k2
    · rw [SDHR_write_sz_of_accept n hacc]; exact k3
    · rw [SDHR_write_sz_of_accept n hacc]; exact k4
    · rw [SDHR_write_sz_of_accept n hacc]; exact k5
  · obtain ⟨k1, k2, k3, k4, k5⟩ := key v_data haccv
    refine ⟨_, _, rfl, ?_, rfl, ?_, ?_, ?_, ?_, ?_⟩
    · rw [SDHR_write_sz_of_accept _ haccv]
      exact SDHR_write_vector_accept READY v_data g hact haccv
    · rw [SDHR_write_sz_of_accept _ haccv]; exact k1
    · rw [SDHR_write_sz_of_accept _ haccv]; exact k2
    · rw [SDHR_write_sz_of_accept _ haccv]; exact k3
    · rw [SDHR_write_sz_of_accept _ haccv]; exact k4
    · rw [SDHR_write_sz_of_accept _ haccv]; exact k5

/-- C18, witness: a three-byte payload on a connected sample state. -/
theorem SDHR_write_store_bounds_witness :
    (sampleState true 255).g_p_shared_memory = true ∧ ¬ (SDHR_write_sz 3 < 3) ∧
    ¬ (SDHR_write_sz [200, 201, 202].length < [200, 201, 202].length) ∧
    ((∃ T g1, T = SDHR_write_stores 16 ((List.range 3).map (fun i => 200 + i))
        (SDHR_write_sz 3) ∧
      SDHR_write 16 (fun i => 200 + i) 3 (sampleState true 255) = some g1 ∧
      g1 = execStores T (sampleState true 255) ∧
      Store.payload (3 + 15) ∈ T ∧
      (∀ i v, Store.data i v ∈ T →
        i ≤ 3 + 13 ∧ i < 3 + 15 ∧ i < sSharedMMapBuffer_R1.BUFFER_SIZE) ∧
      (∃ v, Store.data (3 + 13) v ∈ T) ∧
      (∀ v, Store.data (3 + 14) v ∉ T) ∧
      g1.shm.buf_tohost.data (3 + 14) = (sampleState true 255).shm.buf_tohost.data (3 + 14)) ∧
    (∃ T g2, T = SDHR_write_stores 16 [200, 201, 202] (SDHR_write_sz [200, 201, 202].length) ∧
      SDHR_write_vector 16 [200, 201, 202] (sampleState true 255) = some g2 ∧
      g2 = execStores T (sampleState true 255) ∧
      Store.payload ([200, 201, 202].length + 15) ∈ T ∧
      (∀ i v, Store.data i v ∈ T →
        i ≤ [200, 201, 202].length + 13 ∧ i < [200, 201, 202].length + 15 ∧
        i < sSharedMMapBuffer_R1.BUFFER_SIZE) ∧
      (∃ v, Store.data ([200, 201, 202].length + 13) v ∈ T) ∧
      (∀ v, Store.data ([200, 201, 202].length + 14) v ∉ T) ∧
      g2.shm.buf_tohost.data ([200, 201, 202].length + 14) =
        (sampleState true 255).shm.buf_tohost.data ([200, 201, 202].length + 14))) :=
  ⟨rfl, by decide, by decide,
    SDHR_write_store_bounds 16 (fun i => 200 + i) 3 [200, 201, 202] (sampleState true 255)
      rfl (by decide) (by decide)⟩

/-! ## Keyboard index range -/

/-- C19: `SendKeystroke` checks no range of its scancode: with the lock
acquired on an active link it returns and stores the updated word at index
`scancode / 32` for every scancode; that index lies inside the 8-word
keyboard bitmap if and only if `scancode < 256`. -/
theorem SendKeystroke_index_range (scancode : Nat) (isPressed : Bool) (g : State)
    (hact : g.g_p_shared_memory = true) :
    (scancode / 32 < sSharedMMapInput_R2.KEYB_WORDS ↔ scancode < 256) ∧
    ∃ g1, SendKeystroke scancode isPressed WAIT_OBJECT_0 g = some g1 ∧
      g1.shm.input_other.keyb_state (scancode / 32) =
        (if isPressed then
          g.shm.input_other.keyb_state (scancode / 32) ||| 2 ^ (scancode % 32)
        else
          g.shm.input_other.keyb_state (scancode / 32) &&&
            (UINT_MAX - 2 ^ (scancode % 32))) ∧
      ∀ w, w ≠ scancode / 32 →
        g1.shm.input_other.keyb_state w = g.shm.input_other.keyb_state w := by
  constructor
  · simp only [sSharedMMapInput_R2.KEYB_WORDS]
    omega
  · obtain ⟨g1, e, -, -, k⟩ := SendKeystroke_acquired_words scancode isPressed g hact
    refine ⟨g1, e, ?_, ?_⟩
    · rw [k, if_pos rfl]
    · intro w hw
      rw [k, if_neg hw]

/-- C19, witness: scancode 256, the first one whose word index (8) is outside
the bitmap: the press is stored at index 8 all the same. -/
theorem SendKeystroke_index_range_witness :
    (sampleState true 255).g_p_shared_memory = true ∧
    (256 / 32 < sSharedMMapInput_R2.KEYB_WORDS ↔ 256 < 256) ∧
    ∃ g1, SendKeystroke 256 true WAIT_OBJECT_0 (sampleState true 255) = some g1 ∧
      g1.shm.input_other.keyb_state (256 / 32) =
        (if true = true then
          (sampleState true 255).shm.input_other.keyb_state (256 / 32) ||| 2 ^ (256 % 32)
        else
          (sampleState true 255).shm.input_other.keyb_state (256 / 32) &&&
            (UINT_MAX - 2 ^ (256 % 32))) ∧
      ∀ w, w ≠ 256 / 32 →
        g1.shm.input_other.keyb_state w =
          (sampleState true 255).shm.input_other.keyb_state w :=
  ⟨rfl, SendKeystroke_index_range 256 true (sampleState true 255) rfl⟩

/-! ## Lock release discipline -/

/-- Releases made by the four lock-guarded accessors: one after an acquired
(active link) or abandoned wait, none after any other outcome. -/
theorem accessor_releases (main mockingboard scancode : Nat) (isPressed : Bool)
    (dwWaitResult : Nat) (g : State) (hact : g.g_p_shared_memory = true) :
    (∃ g1, SetSoundVolume main mockingboard dwWaitResult g = some g1 ∧
      g1.releaseCount = g.releaseCount +
        (if dwWaitResult = WAIT_OBJECT_0 ∨ dwWaitResult = WAIT_ABANDONED then 1 else 0)) ∧
    (∃ r g1, GetSoundVolumeMain dwWaitResult g = some (r, g1) ∧
      g1.releaseCount = g.releaseCount +
        (if dwWaitResult = WAIT_OBJECT_0 ∨ dwWaitResult = WAIT_ABANDONED then 1 else 0)) ∧
    (∃ r g1, GetSoundVolumeMockingboard dwWaitResult g = some (r, g1) ∧
      g1.releaseCount = g.releaseCount +
        (if dwWaitResult = WAIT_OBJECT_0 ∨ dwWaitResult = WAIT_ABANDONED then 1 else 0)) ∧
    (∃ g1, SendKeystroke scancode isPressed dwWaitResult g = some g1 ∧
      g1.releaseCount = g.releaseCount +
        (if dwWaitResult = WAIT_OBJECT_0 ∨ dwWaitResult = WAIT_ABANDONED then 1 else 0)) := by
  by_cases h0 : dwWaitResult = WAIT_OBJECT_0
  · subst h0
    refine ⟨?_, ?_, ?_, ?_⟩
    · simp [SetSoundVolume, hact]
    · exact ⟨g.shm.audio.master_vol_l, { g with releaseCount := g.releaseCount + 1 },
        by simp [GetSoundVolumeMain, hact], by simp⟩
    · exact ⟨g.shm.audio.master_vol_r, { g with releaseCount := g.releaseCount + 1 },
        by simp [GetSoundVolumeMockingboard, hact], by simp⟩
    · exact ⟨_, SendKeystroke_acquired scancode isPressed g hact, by simp⟩
  · by_cases ha : dwWaitResult = WAIT_ABANDONED
    · subst ha
      refine ⟨?_, ?_, ?_, ?_⟩
      · simp [SetSoundVolume, h0]
      · exact ⟨0, { g with releaseCount := g.releaseCount + 1 },
          by simp [GetSoundVolumeMain, h0], by simp⟩
      · exact ⟨0, { g with releaseCount := g.releaseCount + 1 },
          by simp [GetSoundVolumeMockingboard, h0], by simp⟩
      · simp [SendKeystroke, h0]
    · refine ⟨?_, ?_, ?_, ?_⟩
      · simp [SetSoundVolume, h0, ha]
      · exact ⟨0, g, by simp [GetSoundVolumeMain, h0, ha], by simp [h0, ha]⟩
      · exact ⟨0, g, by simp [GetSoundVolumeMockingboard, h0, ha], by simp [h0, ha]⟩
      · simp [SendKeystroke, h0, ha]

/-- Releases made by `GetFrameBufferInfo` on an active link: none after a
failed wait, one after every other outcome, the timed-out one included. -/
theorem GetFrameBufferInfo_releases (dwWaitResult : Nat) (g : State)
    (hact : g.g_p_shared_memory = true) :
    ∃ fbI g1, GetFrameBufferInfo dwWaitResult g = some (fbI, g1) ∧
      g1.releaseCount = g.releaseCount + (if dwWaitResult = WAIT_FAILED then 0 else 1) := by
  by_cases ha : dwWaitResult = WAIT_ABANDONED
  · subst ha
    exact ⟨_, _, rfl, rfl⟩
  · by_cases hf : dwWaitResult = WAIT_FAILED
    · subst hf
      exact ⟨_, _, rfl, rfl⟩
    · unfold GetFrameBufferInfo
      rw [if_neg ha, if_neg hf, if_pos hact, if_neg hf]
      exact ⟨_, _, rfl, rfl⟩

/-- C20, the code at a timed-out wait: on the connected sample state
`GetFrameBufferInfo` after `WAIT_TIMEOUT` returns with one call of
`ReleaseMutex` made (the count goes from 0 to 1), although the lock was not
acquired; on every active link it releases once after every outcome but the
failed one.  The four other lock-using operations release once after an
acquired or abandoned wait and not at all after any other outcome. -/
theorem GetFrameBufferInfo_timeout_releases :
    (sampleState true 255).releaseCount = 0 ∧
    (GetFrameBufferInfo WAIT_TIMEOUT (sampleState true 255)).map
      (fun r => r.2.releaseCount) = some 1 ∧
    (∀ (dwWaitResult : Nat) (g : State), g.g_p_shared_memory = true →
      ∃ fbI g1, GetFrameBufferInfo dwWaitResult g = some (fbI, g1) ∧
        g1.releaseCount =
          g.releaseCount + (if dwWaitResult = WAIT_FAILED then 0 else 1)) ∧
    (∀ (main mockingboard scancode : Nat) (isPressed : Bool) (dwWaitResult : Nat)
      (g : State), g.g_p_shared_memory = true →
      (∃ g1, SetSoundVolume main mockingboard dwWaitResult g = some g1 ∧
        g1.releaseCount = g.releaseCount +
          (if dwWaitResult = WAIT_OBJECT_0 ∨ dwWaitResult = WAIT_ABANDONED then 1 else 0)) ∧
      (∃ r g1, GetSoundVolumeMain dwWaitResult g = some (r, g1) ∧
        g1.releaseCount = g.releaseCount +
          (if dwWaitResult = WAIT_OBJECT_0 ∨ dwWaitResult = WAIT_ABANDONED then 1 else 0)) ∧
      (∃ r g1, GetSoundVolumeMockingboard dwWaitResult g = some (r, g1) ∧
        g1.releaseCount = g.releaseCount +
          (if dwWaitResult = WAIT_OBJECT_0 ∨ dwWaitResult = WAIT_ABANDONED then 1 else 0)) ∧
      (∃ g1, SendKeystroke scancode isPressed dwWaitResult g = some g1 ∧
        g1.releaseCount = g.releaseCount +
          (if dwWaitResult = WAIT_OBJECT_0 ∨ dwWaitResult = WAIT_ABANDONED then 1 else 0))) :=
  ⟨rfl, rfl, fun dw g hact => GetFrameBufferInfo_releases dw g hact,
    fun main mockingboard scancode isPressed dw g hact =>
      accessor_releases main mockingboard scancode isPressed dw g hact⟩

end GameLink
